import Mathlib

/-!
# ZionAssassins `script.js`: the `ZionSystem` controller

A shallow embedding of the parts of `src/script.js` that carry behaviour:
the demo calculator (`setupDemoControls.updateDemo`), the scroll handler
(`handleScroll`, `updateParallaxElements`), the feature highlight
(`highlightSystemFeature`), the periodic simulator (`updateLiveMetrics`,
`startSystemMonitoring`, `destroy`), the rate limiter (`throttle`), the click
on a feature card (`handleFeatureClick`), the reveal scheduler
(`setupIntersectionObserver`, `staggerGridAnimation`), the keydown listener
and the scroll animation (`smoothScrollTo`, `easeInOutCubic`).

JavaScript numbers are modelled by `JSNum`: a finite value is an exact
rational, and the non-finite values `Infinity`, `-Infinity` and `NaN` are
separate constructors.  Every arithmetic operation of the source that rounds
in IEEE-754 (`*`, `-`, `/` and decimal literals) takes a `Rounding`
parameter: `exact` leaves the rational result untouched, `binary64` rounds it
to the nearest double, ties to even, as the JavaScript engine does.
-/

namespace ZionSystem

/-! ## JavaScript numbers -/

/-- A JavaScript Number: a finite value (exact rational), the infinities, or
NaN.  The sign of zero is not tracked. -/
inductive JSNum where
  | num (q : ℚ)
  | posInf
  | negInf
  | nan
  deriving DecidableEq, Repr

/-- How the result of an arithmetic operation is turned into a Number. -/
abbrev Rounding := ℚ → JSNum

/-- Exact rational arithmetic: nothing is rounded. -/
def exact : Rounding := JSNum.num

/-- IEEE-754 binary64, round to nearest, ties to even: 53 significant bits,
least exponent -1022 (subnormals share the quantum `2^-1074`), overflow to
the infinity of the same sign. -/
def binary64 : Rounding := fun x =>
  if x = 0 then JSNum.num 0 else
    let a : ℚ := |x|
    let e : ℤ := max (Int.log 2 a) (-1022)
    let quantum : ℚ := (2 : ℚ) ^ (e - 52)
    let m : ℤ := Int.floor (a / quantum)
    let r : ℚ := a / quantum - m
    let n : ℤ :=
      if r < 1 / 2 then m
      else if 1 / 2 < r then m + 1
      else if m % 2 = 0 then m else m + 1
    let v : ℚ := n * quantum
    if (2 : ℚ) ^ (1024 : ℕ) ≤ v then (if x < 0 then JSNum.negInf else JSNum.posInf)
    else JSNum.num (if x < 0 then -v else v)

/-- Whether a Number is negative, as `*` and `/` need it to sign an
infinite result. -/
def JSNum.isNeg : JSNum → Bool
  | .num q => decide (q < 0)
  | .negInf => true
  | _ => false

/-- Whether a Number is a finite zero. -/
def JSNum.isZero : JSNum → Bool
  | .num q => decide (q = 0)
  | _ => false

/-- The infinity whose sign is the product of the signs of `a` and `b`. -/
def signedInf (a b : JSNum) : JSNum :=
  if a.isNeg = b.isNeg then JSNum.posInf else JSNum.negInf

/-- JavaScript `a * b`. -/
def jsMul (R : Rounding) : JSNum → JSNum → JSNum
  | .nan, _ => .nan
  | _, .nan => .nan
  | .num a, .num b => R (a * b)
  | a, b => if a.isZero || b.isZero then .nan else signedInf a b

/-- JavaScript `a - b`. -/
def jsSub (R : Rounding) : JSNum → JSNum → JSNum
  | .nan, _ => .nan
  | _, .nan => .nan
  | .num a, .num b => R (a - b)
  | .posInf, .posInf => .nan
  | .negInf, .negInf => .nan
  | .posInf, _ => .posInf
  | .negInf, _ => .negInf
  | .num _, .posInf => .negInf
  | .num _, .negInf => .posInf

/-- JavaScript `a + b`. -/
def jsAdd (R : Rounding) : JSNum → JSNum → JSNum
  | .nan, _ => .nan
  | _, .nan => .nan
  | .num a, .num b => R (a + b)
  | .posInf, .negInf => .nan
  | .negInf, .posInf => .nan
  | .posInf, _ => .posInf
  | .negInf, _ => .negInf
  | .num _, .posInf => .posInf
  | .num _, .negInf => .negInf

/-- JavaScript `a > b`: false as soon as an argument is NaN. -/
def jsGt : JSNum → JSNum → Bool
  | .nan, _ => false
  | _, .nan => false
  | .num a, .num b => decide (a > b)
  | .posInf, .posInf => false
  | .posInf, _ => true
  | _, .posInf => false
  | .negInf, _ => false
  | .num _, .negInf => true

/-- JavaScript `a / b`.  A finite non-zero value divided by zero is an
infinity (the divisors that arise here are differences, hence `+0`), and
`0 / 0` is NaN. -/
def jsDiv (R : Rounding) : JSNum → JSNum → JSNum
  | .nan, _ => .nan
  | _, .nan => .nan
  | .num a, .num b =>
      if b = 0 then
        (if a = 0 then .nan else if a < 0 then .negInf else .posInf)
      else R (a / b)
  | .num _, _ => .num 0
  | _, .posInf => .nan
  | _, .negInf => .nan
  | a, b => signedInf a b

/-- JavaScript `Math.abs`. -/
def jsAbs : JSNum → JSNum
  | .num q => .num |q|
  | .nan => .nan
  | _ => .posInf

/-- JavaScript `Math.max(a, b)`: NaN if either argument is NaN. -/
def jsMax : JSNum → JSNum → JSNum
  | .nan, _ => .nan
  | _, .nan => .nan
  | .posInf, _ => .posInf
  | _, .posInf => .posInf
  | .negInf, b => b
  | a, .negInf => a
  | .num a, .num b => .num (max a b)

/-- JavaScript `Math.min(a, b)`: NaN if either argument is NaN. -/
def jsMin : JSNum → JSNum → JSNum
  | .nan, _ => .nan
  | _, .nan => .nan
  | .negInf, _ => .negInf
  | _, .negInf => .negInf
  | .posInf, b => b
  | a, .posInf => a
  | .num a, .num b => .num (min a b)

/-- JavaScript `Math.round`: the nearest integer, halves going up. -/
def jsRound : JSNum → JSNum
  | .num q => .num (Int.floor (q + 1 / 2) : ℤ)
  | x => x

/-- The text of a Number inside a template literal, for the values whose
text is plain: the non-finite ones and the integers below `10^21` in
magnitude.  `none` stands for a text this model does not spell out
(fractions, exponent form). -/
def jsToString : JSNum → Option String
  | .nan => some "NaN"
  | .posInf => some "Infinity"
  | .negInf => some "-Infinity"
  | .num q =>
      if q.den = 1 ∧ |q| < 10 ^ 21 then some (toString q.num) else none

/-- JavaScript `x.toFixed(1)`: the sign, then the integer `n` nearest to
`|x| * 10` (the larger one on a tie) written with a point before its last
digit.  `none` at `10^21` and above, where the result is in exponent form. -/
def toFixed1 : JSNum → Option String
  | .nan => some "NaN"
  | .posInf => some "Infinity"
  | .negInf => some "-Infinity"
  | .num q =>
      let s : String := if q < 0 then "-" else ""
      let x : ℚ := |q|
      if 10 ^ 21 ≤ x then none
      else
        let n : ℤ := Int.floor (x * 10 + 1 / 2)
        some (s ++ toString (n / 10) ++ "." ++ toString (n % 10))

/-- An exception thrown by a handler. -/
inductive JSError where
  | typeError (msg : String)
  | syntaxError (msg : String)
  deriving DecidableEq, Repr

/-! ## The demo calculator: `setupDemoControls.updateDemo` -/

/-- The own properties of the literal `{ low: 0.8, moderate: 1.0, high: 1.3 }`
read at key `activity`; `none` is a key the literal does not define. -/
def activityTable (R : Rounding) (activity : String) : Option JSNum :=
  if activity = "low" then some (R (8 / 10))
  else if activity = "moderate" then some (R 1)
  else if activity = "high" then some (R (13 / 10))
  else none

/-- The value `activityMultiplier` has as an operand of `*`: a key outside
the literal reads `undefined` (or a member of `Object.prototype`), which
converts to NaN. -/
def activityMultiplier (R : Rounding) (activity : String) : JSNum :=
  (activityTable R activity).getD JSNum.nan

/-- The expression `Math.max(0.7, 1 - Math.abs(temp - 15) * 0.02)`. -/
def tempFactor (R : Rounding) (temp : ℚ) : JSNum :=
  jsMax (R (7 / 10))
    (jsSub R (.num 1) (jsMul R (jsAbs (jsSub R (R temp) (.num 15))) (R (2 / 100))))

/-- What one run of `updateDemo` computes and writes: the four local
values and the `textContent` of the five output elements. -/
structure DemoView where
  tempFactor : JSNum
  efficiency : JSNum
  energyGen : JSNum
  oxygenProd : JSNum
  powerValue : Option String
  tempValue : Option String
  oxygenOutput : Option String
  energyOutput : Option String
  efficiencyOutput : Option String
  deriving DecidableEq, Repr

/-- Append a unit to the text of a value. -/
def withUnit (s : Option String) (u : String) : Option String :=
  s.map (fun t => t ++ u)

/-- The closure `updateDemo` of `setupDemoControls`, on the parsed slider
values `power`, `temp` and the selected `activity`.  The body contains no
`throw` and every element it writes to was created by `showInteractiveDemo`,
so it always returns normally.  (The unit of `tempValue` is spelled with the
bytes the source file holds.) -/
def updateDemo (R : Rounding) (power : ℤ) (activity : String) (temp : ℤ) :
    Except JSError DemoView :=
  let baseEfficiency : JSNum := .num 85
  let tf := tempFactor R temp
  let am := activityMultiplier R activity
  let efficiency := jsMin (.num 100) (jsMul R baseEfficiency tf)
  let energyGen := jsMax (.num 3) (jsMul R (jsMul R (R power) (R (167 / 100))) am)
  let oxygenProd := jsMin (.num 100) (jsMul R efficiency am)
  .ok
    { tempFactor := tf
      efficiency := efficiency
      energyGen := energyGen
      oxygenProd := oxygenProd
      powerValue := withUnit (jsToString (R power)) " kWh"
      tempValue := withUnit (jsToString (R temp)) "Â°C"
      oxygenOutput := withUnit (jsToString (jsRound oxygenProd)) "%"
      energyOutput := withUnit (toFixed1 energyGen) " kWh"
      efficiencyOutput := withUnit (jsToString (jsRound efficiency)) "%" }


/-! ## The page and the scroll handler -/

/-- A value of the `transform` style property: a fixed text, or one of the
two template literals of `updateParallaxElements` with its number. -/
inductive Transform where
  | text (s : String)
  | translateY (px : JSNum)
  | rotate (deg : JSNum)
  deriving DecidableEq, Repr

/-- The inline style properties the handlers write. -/
structure ElemStyle where
  background : String := ""
  borderBottomColor : String := ""
  transform : Transform := .text ""
  boxShadow : String := ""
  transition : String := ""
  deriving DecidableEq, Repr

/-- The page as the controller sees it.  `navbar` is the element held in
`this.navbar` (`none` when `init` found no `.nav`); `document` lists, for each
selector handed to `document.querySelector`, the first element matching it (a
selector without an entry matches nothing); the last three fields are the
node lists of `.indicator` (whether the class `active` is set),
`.screen-line` (opacity) and `.vent` (background colour). -/
structure Page where
  navbar : Option ElemStyle
  document : List (String × ElemStyle)
  indicators : List Bool
  screenLines : List String
  vents : List String
  deriving DecidableEq, Repr

/-- The call `document.querySelector(sel)`. -/
def querySelector (p : Page) (sel : String) : Option ElemStyle :=
  p.document.lookup sel

/-- Write back the style of the first element matching `sel`. -/
def setFirst (sel : String) (st : ElemStyle) :
    List (String × ElemStyle) → List (String × ElemStyle)
  | [] => []
  | (k, v) :: rest =>
      if k == sel then (k, st) :: rest else (k, v) :: setFirst sel st rest

/-- The method `updateParallaxElements(scrollPercent)`: both targets are
looked up first, then each one that exists gets its transform. -/
def updateParallaxElements (R : Rounding) (p : Page) (scrollPercent : JSNum) :
    Except JSError Page :=
  let heroVisual := querySelector p ".hero-visual"
  let systemPreview := querySelector p ".system-preview"
  let d1 :=
    match heroVisual with
    | some st =>
        setFirst ".hero-visual"
          { st with transform := .translateY (jsMul R scrollPercent (.num 50)) } p.document
    | none => p.document
  let d2 :=
    match systemPreview with
    | some st =>
        setFirst ".system-preview"
          { st with transform := .rotate (jsMul R scrollPercent (.num 5)) } d1
    | none => d1
  .ok { p with document := d2 }

/-- The local `scrollPercent` of `handleScroll`:
`Math.min(scrollY / (document.body.scrollHeight - window.innerHeight), 1)`. -/
def scrollPercent (R : Rounding) (scrollY scrollHeight innerHeight : ℚ) : JSNum :=
  jsMin (jsDiv R (.num scrollY) (jsSub R (.num scrollHeight) (.num innerHeight))) (.num 1)

/-- The navbar branch of `handleScroll`: the two properties it assigns,
by the test `scrollY > 100`. -/
def navbarStyle (scrollY : ℚ) (nav : ElemStyle) : ElemStyle :=
  if scrollY > 100 then
    { nav with
      background := "rgba(28, 28, 30, 0.95)"
      borderBottomColor := "rgba(255, 255, 255, 0.15)" }
  else
    { nav with
      background := "rgba(28, 28, 30, 0.72)"
      borderBottomColor := "rgba(255, 255, 255, 0.08)" }

/-- The method `handleScroll()`, on the values it reads from `window` and
`document.body`.  Reading `.style` of a null `this.navbar` throws a
TypeError, and the rest of the body is then not run. -/
def handleScroll (R : Rounding) (p : Page) (scrollY scrollHeight innerHeight : ℚ) :
    Except JSError Page :=
  let sp := scrollPercent R scrollY scrollHeight innerHeight
  match p.navbar with
  | none => .error (.typeError "Cannot read properties of null")
  | some nav =>
      updateParallaxElements R { p with navbar := some (navbarStyle scrollY nav) } sp

/-- The own properties of `featureMap` in `highlightSystemFeature`. -/
def featureMap (feature : String) : Option String :=
  [("intake", ".flow-input"), ("electrolysis", ".unit-main"),
   ("transfer", ".processing-flows"), ("harvesting", ".suit-component.piezo"),
   ("cogeneration", ".unit-vents"), ("monitoring", ".device-screen")].lookup feature

/-- The property names every object literal inherits from
`Object.prototype`; read through `featureMap[feature]` they give a function
or an object, whose text is not a valid selector. -/
def objectPrototypeKeys : List String :=
  ["constructor", "hasOwnProperty", "isPrototypeOf", "propertyIsEnumerable",
   "toLocaleString", "toString", "valueOf", "__proto__", "__defineGetter__",
   "__defineSetter__", "__lookupGetter__", "__lookupSetter__"]

/-- The style `highlightSystemFeature` gives the element it finds. -/
def highlighted (st : ElemStyle) : ElemStyle :=
  { st with
    boxShadow := "0 0 20px #007AFF"
    transform := .text "scale(1.1)"
    transition := "all 0.3s ease" }

/-- The method `highlightSystemFeature(feature)`.  A feature outside the map
reads `undefined`, which `querySelector` turns into the selector
`undefined`; an inherited key makes `querySelector` throw a SyntaxError. -/
def highlightSystemFeature (p : Page) (feature : String) : Except JSError Page :=
  let selector : Except JSError String :=
    match featureMap feature with
    | some sel => .ok sel
    | none =>
        if feature ∈ objectPrototypeKeys then .error (.syntaxError "not a valid selector")
        else .ok "undefined"
  match selector with
  | .error e => .error e
  | .ok sel =>
      match querySelector p sel with
      | some element => .ok { p with document := setFirst sel (highlighted element) p.document }
      | none => .ok p

/-- A page that has every target: a navbar, the two parallax elements,
the element of the feature `intake`, three indicators, two screen lines and
one vent. -/
def samplePage : Page :=
  { navbar := some {}
    document := [(".hero-visual", {}), (".system-preview", {}), (".flow-input", {})]
    indicators := [true, true, false]
    screenLines := ["1", "1"]
    vents := ["#34C759"] }

/-- A page variant without any of the targets: no `.nav`, no parallax
element, no highlight target. -/
def barePage : Page :=
  { navbar := none, document := [], indicators := [], screenLines := [], vents := [] }

/-! ## The periodic simulator and its timers -/

/-- The record `this.metrics`. -/
structure Metrics where
  powerConsumption : JSNum
  powerGeneration : JSNum
  oxygenRate : JSNum
  efficiency : JSNum
  deriving DecidableEq, Repr

/-- The two callbacks the controller hands to `setInterval`. -/
inductive Callback where
  | liveMetrics
  | monitoring
  deriving DecidableEq, Repr

/-- An active registration made by `setInterval`. -/
structure Interval where
  id : ℕ
  period : ℕ
  callback : Callback
  deriving DecidableEq, Repr

/-- The controller object together with the browser state it acts on:
`intervals` and `nextTimerId` are the timer table of the window,
`demoModal` the texts of the demo modal once `updateDemo` has run. -/
structure System where
  page : Page
  metrics : Metrics
  monitoringInterval : Option ℕ
  intervals : List Interval
  nextTimerId : ℕ
  demoModal : Option DemoView
  deriving DecidableEq, Repr

/-- The browser call `setInterval(callback, period)`: registers the callback
and returns its handle. -/
def setInterval (s : System) (callback : Callback) (period : ℕ) : System × ℕ :=
  ({ s with
     intervals := s.intervals ++ [{ id := s.nextTimerId, period := period, callback := callback }]
     nextTimerId := s.nextTimerId + 1 },
   s.nextTimerId)

/-- The browser call `clearInterval(id)`. -/
def clearInterval (s : System) (id : ℕ) : System :=
  { s with intervals := s.intervals.filter (fun iv => iv.id != id) }

/-- The method `init()`: the element lookups are the fields of `page`, and
the metrics get their initial values. -/
def init (page : Page) (nextTimerId : ℕ) : System :=
  { page := page
    metrics :=
      { powerConsumption := .num 3, powerGeneration := .num 5, oxygenRate := .num 100,
        efficiency := .num 85 }
    monitoringInterval := none
    intervals := []
    nextTimerId := nextTimerId
    demoModal := none }

/-- The method `startSystemMonitoring()`: the handle is kept in
`this.monitoringInterval`. -/
def startSystemMonitoring (s : System) : System :=
  let r := setInterval s .monitoring 5000
  { r.1 with monitoringInterval := some r.2 }

/-- The method `updateLiveMetrics()`: the handle `setInterval` returns is
dropped. -/
def updateLiveMetrics (s : System) : System :=
  (setInterval s .liveMetrics 2000).1

/-- The method `setupEventListeners()`, as far as it starts timers: the
listener registrations hold no state of their own, and the last statement
calls `startSystemMonitoring`. -/
def setupEventListeners (s : System) : System :=
  startSystemMonitoring s

/-- The method `startAnimations()`, as far as it starts timers: the two
`animationDelay` passes set no timer, the last statement calls
`updateLiveMetrics`. -/
def startAnimations (s : System) : System :=
  updateLiveMetrics s

/-- The constructor: `init`, `setupEventListeners`, `startAnimations`. -/
def construct (page : Page) (nextTimerId : ℕ) : System :=
  startAnimations (setupEventListeners (init page nextTimerId))

/-- The method `destroy()`: clears `this.monitoringInterval` when it is
truthy (a handle is a number, truthy unless zero) and nothing else. -/
def destroy (s : System) : System :=
  match s.monitoringInterval with
  | some h => if h ≠ 0 then clearInterval s h else s
  | none => s

/-- The method `refreshMetricDisplays()`. -/
def refreshMetricDisplays (m : Metrics) (p : Page) : Page :=
  { p with
    indicators := p.indicators.mapIdx (fun index _ =>
      if jsGt m.oxygenRate (.num 98) then true
      else if index < 2 then true
      else false) }

/-- The method `updateSystemStatus()`; `rand i` is the value `Math.random()`
returns for the line at index `i`, compared with the literal `0.3`. -/
def updateSystemStatus (R : Rounding) (rand : ℕ → ℚ) (p : Page) : Page :=
  { p with
    screenLines := p.screenLines.mapIdx (fun index _ =>
      if jsGt (.num (rand index)) (R (3 / 10)) then "1" else "0.3") }

/-- The method `checkSystemHealth()`. -/
def checkSystemHealth (m : Metrics) (p : Page) : Page :=
  let isHealthy : Bool := jsGt m.efficiency (.num 85)
  { p with vents := p.vents.map (fun _ => if isHealthy then "#34C759" else "#FF9500") }

/-- The body of the callback `updateLiveMetrics` registers; `r1` and `r2`
are the two values of `Math.random()`, in the order of the calls.  Both the
product and the sum round. -/
def liveMetricsTick (R : Rounding) (s : System) (r1 r2 : ℚ) : System :=
  let m : Metrics :=
    { s.metrics with
      oxygenRate := jsAdd R (.num 95) (jsMul R (.num r1) (.num 10))
      efficiency := jsAdd R (.num 80) (jsMul R (.num r2) (.num 10)) }
  { s with metrics := m, page := refreshMetricDisplays m s.page }

/-- The body of the callback `startSystemMonitoring` registers. -/
def monitoringTick (R : Rounding) (s : System) (rand : ℕ → ℚ) : System :=
  { s with page := checkSystemHealth s.metrics (updateSystemStatus R rand s.page) }

/-- The timer with handle `id` comes due: its callback runs if the
registration is still active, and nothing happens otherwise. -/
def fire (R : Rounding) (s : System) (id : ℕ) (rand : ℕ → ℚ) : System :=
  match s.intervals.find? (fun iv => iv.id == id) with
  | none => s
  | some iv =>
      match iv.callback with
      | .liveMetrics => liveMetricsTick R s (rand 0) (rand 1)
      | .monitoring => monitoringTick R s rand

/-- An `input` or `change` event of the demo controls: `updateDemo` runs and
its texts land in the modal. -/
def demoUpdate (R : Rounding) (s : System) (power : ℤ) (activity : String) (temp : ℤ) :
    Except JSError System :=
  match updateDemo R power activity temp with
  | .ok v => .ok { s with demoModal := some v }
  | .error e => .error e

/-! ## The rate limiter: `throttle(func, limit)` -/

/-- The state of one closure returned by `throttle`, on a clock counted in
milliseconds: the variable `inThrottle` (initially `undefined`, which is
falsy), the times at which the pending `setTimeout` callbacks run, and the
log of the events handed to `func`, newest first, each named by its time. -/
structure Throttle where
  inThrottle : Bool
  timers : List ℕ
  calls : List ℕ
  deriving DecidableEq, Repr

/-- The closure right after `throttle` returned it. -/
def Throttle.fresh : Throttle :=
  { inThrottle := false, timers := [], calls := [] }

/-- A scroll event: its time, how late the timeout it may set runs (the
browser runs a timeout no earlier than its delay), and whether the call of
`func` it may cause throws. -/
structure Scroll where
  time : ℕ
  lag : ℕ
  throws : Bool
  deriving DecidableEq, Repr

/-- The body of the returned function, called for the event `e`.  When the
flag is clear `func.apply` runs first; if it throws, the exception leaves the
function at once, so `inThrottle` stays as it was and no timeout is set. -/
def throttled (limit : ℕ) (s : Throttle) (e : Scroll) : Throttle :=
  if !s.inThrottle then
    if e.throws then { s with calls := e.time :: s.calls }
    else
      { inThrottle := true
        timers := s.timers ++ [e.time + limit + e.lag]
        calls := e.time :: s.calls }
  else s

/-- The timeouts that run at time `t` or before: each sets
`inThrottle = false` and is gone. -/
def runTimers (s : Throttle) (t : ℕ) : Throttle :=
  { inThrottle := if s.timers.any (fun d => decide (d ≤ t)) then false else s.inThrottle
    timers := s.timers.filter (fun d => !decide (d ≤ t))
    calls := s.calls }

/-- A scroll event `e`: the timeouts that have come due run first (the
order most favourable to a call), then the returned function is called. -/
def scrollEvent (limit : ℕ) (s : Throttle) (e : Scroll) : Throttle :=
  throttled limit (runTimers s e.time) e

/-- A sequence of scroll events. -/
def runEvents (limit : ℕ) (events : List Scroll) : Throttle :=
  events.foldl (scrollEvent limit) Throttle.fresh

/-- Scroll events at the given times, every timeout on time and `func`
returning normally. -/
def onTime (times : List ℕ) : List Scroll :=
  times.map (fun t => { time := t, lag := 0, throws := false })

/-- Scroll events at the given times with a `func` that throws on every
call, as `handleScroll` does on a page without `.nav`. -/
def throwing (times : List ℕ) : List Scroll :=
  times.map (fun t => { time := t, lag := 0, throws := true })

/-- No further event arrives and every pending timeout runs. -/
def settle (s : Throttle) : Throttle :=
  { inThrottle := if s.timers.isEmpty then s.inThrottle else false
    timers := []
    calls := s.calls }

/-- The shape of a throttle state reached by events in the window
`[T, T + W)`: untouched, or holding one pending timeout set by the newest
call `c`, with the earlier calls at least `limit` apart below it. -/
def ThrottleInv (T W limit : ℕ) (s : Throttle) : Prop :=
  s = Throttle.fresh ∨
    ∃ c rest lag, s.calls = c :: rest ∧ s.inThrottle = true ∧
      s.timers = [c + limit + lag] ∧ T + rest.length * limit ≤ c ∧ c < T + W

/-! ## The navbar states -/

/-- The opaque state of the navbar: background alpha 0.95, border alpha 0.15. -/
def isOpaque (st : ElemStyle) : Prop :=
  st.background = "rgba(28, 28, 30, 0.95)" ∧
    st.borderBottomColor = "rgba(255, 255, 255, 0.15)"

/-- The translucent state of the navbar: background alpha 0.72, border alpha
0.08. -/
def isTranslucent (st : ElemStyle) : Prop :=
  st.background = "rgba(28, 28, 30, 0.72)" ∧
    st.borderBottomColor = "rgba(255, 255, 255, 0.08)"

/-! ## The click on a feature card -/

/-- The names of the members the body of `class ZionSystem` defines, in the
order of the source.  No other statement of the script adds a member to the
class or to its instances under another name that is called. -/
def classMethods : List String :=
  ["constructor", "init", "setupEventListeners", "handleScroll", "updateParallaxElements",
   "handleFeatureHover", "handleFeatureLeave", "handleFeatureClick", "handleComponentClick",
   "handleCTAClick", "handleNavClick", "highlightSystemFeature", "resetSystemHighlights",
   "animateCardSelection", "animateComponentActivation", "animateButtonPress",
   "showComponentTooltip", "hideComponentTooltip", "createTooltip", "smoothScrollTo",
   "easeInOutCubic", "updateActiveNavLink", "setupIntersectionObserver",
   "staggerGridAnimation", "startAnimations", "animateEnergyFlow", "animateSystemComponents",
   "updateLiveMetrics", "refreshMetricDisplays", "startSystemMonitoring", "updateSystemStatus",
   "checkSystemHealth", "showInteractiveDemo", "setupDemoControls", "playInteractionSound",
   "playTone", "throttle", "destroy"]

/-- The ripple element `animateCardSelection` creates: its side and its
offsets inside the card, in pixels. -/
structure Ripple where
  size : ℚ
  left : ℚ
  top : ℚ
  deriving DecidableEq, Repr

/-- A feature card and what a click on it can touch: `feature` is
`dataset.feature`, `width` and `height` come from `getBoundingClientRect()`,
`position` is `style.position`, `ripples` are the appended children,
`rippleTimeouts` the delays of the pending `ripple.remove()` timeouts,
`soundCalls` the arguments of the calls of `playInteractionSound`, `tones` the
frequencies handed to `playTone`, and `audioEnabled` the member of that name,
which no statement of the script assigns. -/
structure ClickWorld where
  feature : String
  width : ℚ
  height : ℚ
  position : String
  ripples : List Ripple
  rippleTimeouts : List ℕ
  soundCalls : List String
  tones : List ℕ
  audioEnabled : Bool
  deriving DecidableEq, Repr

/-- The method `animateCardSelection(card)`. -/
def animateCardSelection (w : ClickWorld) : ClickWorld :=
  let size := max w.width w.height
  let ripple : Ripple :=
    { size := size, left := w.width / 2 - size / 2, top := w.height / 2 - size / 2 }
  { w with
    position := "relative"
    ripples := w.ripples ++ [ripple]
    rippleTimeouts := w.rippleTimeouts ++ [600] }

/-- The method `playInteractionSound(type)`: the tone is played only when
`this.audioEnabled` is truthy; the frequency is the table entry, 800 for a
type outside the table. -/
def playInteractionSound (type : String) (w : ClickWorld) : ClickWorld :=
  let frequency : ℕ :=
    if type = "hover" then 800 else if type = "select" then 1200
    else if type = "success" then 1000 else 800
  { w with
    soundCalls := w.soundCalls ++ [type]
    tones := if w.audioEnabled then w.tones ++ [frequency] else w.tones }

/-- A call `this.name(...)`: when the class defines the member its body
runs; otherwise the callee is `undefined` and the call throws a TypeError,
leaving the state as it is. -/
def callMethod (name : String) (body : ClickWorld → ClickWorld) (w : ClickWorld) :
    ClickWorld × Option JSError :=
  if name ∈ classMethods then (body w, none)
  else (w, some (.typeError ("this." ++ name ++ " is not a function")))

/-- The method `handleFeatureClick(e)`: three calls in sequence, the first
exception ending the handler.  The source holds no body for
`showFeatureDetails`, so none is passed. -/
def handleFeatureClick (w : ClickWorld) : ClickWorld × Option JSError :=
  match callMethod "animateCardSelection" animateCardSelection w with
  | (w1, some e) => (w1, some e)
  | (w1, none) =>
      match callMethod "showFeatureDetails" (fun x => x) w1 with
      | (w2, some e) => (w2, some e)
      | (w2, none) => callMethod "playInteractionSound" (playInteractionSound "select") w2

/-- A feature card of 300 by 200 pixels for the feature `intake`, not yet
clicked. -/
def sampleCard : ClickWorld :=
  { feature := "intake", width := 300, height := 200, position := "", ripples := [],
    rippleTimeouts := [], soundCalls := [], tones := [], audioEnabled := false }

/-! ## The reveal scheduler: `setupIntersectionObserver`, `staggerGridAnimation` -/

/-- An element the scheduler can touch: whether it matches the selector list
of `animatableElements`, and the three style properties written. -/
structure RevealElem where
  animatable : Bool
  opacity : String
  transform : String
  transition : String
  deriving DecidableEq, Repr

/-- A parent element with its class list and its children in order. -/
structure Container where
  classList : List String
  children : List RevealElem
  deriving DecidableEq, Repr

/-- A pending timeout of `staggerGridAnimation`: when it runs and the item
it reveals, named by the index of its parent and its index in the parent. -/
structure Timeout where
  due : ℕ
  container : ℕ
  child : ℕ
  deriving DecidableEq, Repr

/-- The elements and the pending timeouts of the scheduler. -/
structure RevealState where
  containers : List Container
  timeouts : List Timeout
  deriving DecidableEq, Repr

/-- An entry of an observer notification: the target, named by the index of
its parent and its own index, and `isIntersecting`. -/
structure Entry where
  container : ℕ
  child : ℕ
  isIntersecting : Bool
  deriving DecidableEq, Repr

/-- The two assignments `opacity = '1'`, `transform = 'translateY(0)'`. -/
def reveal (el : RevealElem) : RevealElem :=
  { el with opacity := "1", transform := "translateY(0)" }

/-- The three assignments of the `forEach` in `setupIntersectionObserver`. -/
def hide (el : RevealElem) : RevealElem :=
  { el with
    opacity := "0"
    transform := "translateY(40px)"
    transition := "opacity 0.6s ease, transform 0.6s ease" }

/-- The state Hidden. -/
def isHidden (el : RevealElem) : Prop :=
  el.opacity = "0" ∧ el.transform = "translateY(40px)"

/-- The state Revealed. -/
def isRevealed (el : RevealElem) : Prop :=
  el.opacity = "1" ∧ el.transform = "translateY(0)"

/-- Apply `f` to the child `i` of the container `g`. -/
def modifyChild (f : RevealElem → RevealElem) (g i : ℕ) (cs : List Container) :
    List Container :=
  cs.mapIdx (fun k c =>
    if k = g then
      { c with children := c.children.mapIdx (fun j el => if j = i then f el else el) }
    else c)

/-- The element at index `i` of the container `g`, if there is one. -/
def elemAt (cs : List Container) (g i : ℕ) : Option RevealElem :=
  (cs[g]?).bind (fun c => c.children[i]?)

/-- The test on `parentElement.classList` in the observer callback. -/
def isGrid (c : Container) : Bool :=
  c.classList.contains "features-grid" || c.classList.contains "specs-grid" ||
    c.classList.contains "benefits-grid"

/-- The timeouts `staggerGridAnimation` sets at time `now` for the grid at
index `g`: one per child, `index * 100` ms ahead. -/
def staggerTimeouts (now g : ℕ) (grid : Container) : List Timeout :=
  (List.range grid.children.length).map
    (fun index => { due := now + index * 100, container := g, child := index })

/-- The method `staggerGridAnimation(grid)` called at time `now`. -/
def staggerGridAnimation (now g : ℕ) (grid : Container) (s : RevealState) : RevealState :=
  { s with timeouts := s.timeouts ++ staggerTimeouts now g grid }

/-- The body of the `entries.forEach` in the observer callback. -/
def observeEntry (now : ℕ) (s : RevealState) (e : Entry) : RevealState :=
  if e.isIntersecting then
    let s1 : RevealState :=
      { s with containers := modifyChild reveal e.container e.child s.containers }
    match s1.containers[e.container]? with
    | some parent => if isGrid parent then staggerGridAnimation now e.container parent s1 else s1
    | none => s1
  else s

/-- The observer callback on a batch of entries delivered at time `now`. -/
def observerCallback (now : ℕ) (s : RevealState) (entries : List Entry) : RevealState :=
  entries.foldl (observeEntry now) s

/-- The callback of one stagger timeout. -/
def runTimeout (cs : List Container) (t : Timeout) : List Container :=
  modifyChild reveal t.container t.child cs

/-- The timeouts due at time `now` or before run, in the order they were
set, and are gone. -/
def runDue (now : ℕ) (s : RevealState) : RevealState :=
  { containers := (s.timeouts.filter (fun t => decide (t.due ≤ now))).foldl runTimeout s.containers
    timeouts := s.timeouts.filter (fun t => !decide (t.due ≤ now)) }

/-- The method `setupIntersectionObserver()`: every animatable element
starts Hidden and is observed; no timeout is pending. -/
def setupIntersectionObserver (cs : List Container) : RevealState :=
  { containers := cs.map (fun c =>
      { c with children := c.children.map (fun el => if el.animatable then hide el else el) })
    timeouts := [] }

/-- A features grid with two cards and a section with one header, as the
markup delivers them. -/
def sampleContainers : List Container :=
  [{ classList := ["features-grid"]
     children := [{ animatable := true, opacity := "", transform := "", transition := "" },
                  { animatable := true, opacity := "", transform := "", transition := "" }] },
   { classList := ["section"]
     children := [{ animatable := true, opacity := "", transform := "", transition := "" }] }]

/-- The relation between the elements before and after scheduler steps that
only ever reveal: every element is as it was, or is its revealed self. -/
def RevealOnly (cs cs2 : List Container) : Prop :=
  ∀ g i, elemAt cs2 g i = elemAt cs g i ∨ elemAt cs2 g i = (elemAt cs g i).map reveal

/-- The sample page after `setupIntersectionObserver`, a first notification
for the first card at time 0, and the run of every timeout it set. -/
def settledReveal : RevealState :=
  runDue 1000 (observerCallback 0 (setupIntersectionObserver sampleContainers)
    [{ container := 0, child := 0, isIntersecting := true }])

/-! ## The keydown listener -/

/-- The constant `targets`. -/
def targets : List String := ["zion", "39"]

/-- JavaScript `s.endsWith(t)`. -/
def endsWith (s t : String) : Bool :=
  t.data.isSuffixOf s.data

/-- The test `targets.some(t => typed.endsWith(t))`. -/
def matchesTarget (typed : String) : Bool :=
  targets.any (fun t => endsWith typed t)

/-- The keydown listener on the buffer `secret`: the new buffer and whether
`activateEasterEgg` was called.  `toLowerCase` is the string method of that
name and `key` is `e.key`. -/
def keydown (toLowerCase : String → String) (secret : List String) (key : String) :
    List String × Bool :=
  let pushed := secret ++ [toLowerCase key]
  let kept := if pushed.length > 10 then pushed.tail else pushed
  let typed := String.join kept
  if matchesTarget typed then ([], true) else (kept, false)

/-- The buffer after a sequence of keydown events, starting from the empty
buffer of the page load. -/
def keydownRun (toLowerCase : String → String) (keys : List String) : List String :=
  keys.foldl (fun secret key => (keydown toLowerCase secret key).1) []

/-- The last ten entries of a list. -/
def lastTen (l : List String) : List String :=
  l.drop (l.length - 10)

/-! ## The scroll animation: `smoothScrollTo`, `easeInOutCubic` -/

/-- The method `easeInOutCubic(t, b, c, d)` in exact arithmetic, for a
duration `d` other than zero. -/
def easeInOutCubic (t b c d : ℚ) : ℚ :=
  let t1 := t / (d / 2)
  if t1 < 1 then c / 2 * t1 * t1 * t1 + b
  else
    let t2 := t1 - 2
    c / 2 * (t2 * t2 * t2 + 2) + b

/-- The closure `animation` of `smoothScrollTo` over the frame times that
follow, once `start` is set: each frame writes `(timeElapsed, run)`, and the
next frame is requested only while `timeElapsed < duration`. -/
def animationFrames (startPosition distance duration start : ℚ) : List ℚ → List (ℚ × ℚ)
  | [] => []
  | currentTime :: rest =>
      let timeElapsed := currentTime - start
      let run := easeInOutCubic timeElapsed startPosition distance duration
      (timeElapsed, run) ::
        (if timeElapsed < duration then
          animationFrames startPosition distance duration start rest
        else [])

/-- The method `smoothScrollTo(targetId)`: `target` is the `offsetTop` of the
element found (`none` when there is none), `frames` are the times the
browser passes to the animation frames; the result lists, per frame, the
elapsed time and the position handed to `window.scrollTo`. -/
def smoothScrollTo (target : Option ℚ) (pageYOffset : ℚ) (frames : List ℚ) : List (ℚ × ℚ) :=
  match target with
  | none => []
  | some offsetTop =>
      let targetPosition := offsetTop - 80
      let startPosition := pageYOffset
      let distance := targetPosition - startPosition
      let duration : ℚ := 800
      match frames with
      | [] => []
      | first :: _ => animationFrames startPosition distance duration first frames

/-! ## Theorems -/

/-- The rounding function reproduces the well-known doubles: `0.1` is
`0x3FB999999999999A`, `0.7` is `0x3FE6666666666666`, integers are exact. -/
theorem binary64_known_values :
    binary64 (1 / 10) = .num (3602879701896397 / 2 ^ 55) ∧
    binary64 (7 / 10) = .num (6305039478318694 / 2 ^ 53) ∧
    binary64 (2 / 100) = .num (5764607523034235 / 2 ^ 58) ∧
    binary64 85 = .num 85 ∧
    binary64 (1 / 3) = .num (6004799503160661 / 2 ^ 54) := by
  decide!

/-- Round-to-nearest of a scaled value stays between integers that enclose it. -/
theorem nearest_between (y : ℚ) (lo hi : ℤ) (hlo : (lo : ℚ) ≤ y) (hhi : y ≤ hi) :
    lo ≤ (if y - (Int.floor y : ℤ) < 1 / 2 then Int.floor y
          else if 1 / 2 < y - (Int.floor y : ℤ) then Int.floor y + 1
          else if Int.floor y % 2 = 0 then Int.floor y else Int.floor y + 1) ∧
    (if y - (Int.floor y : ℤ) < 1 / 2 then Int.floor y
          else if 1 / 2 < y - (Int.floor y : ℤ) then Int.floor y + 1
          else if Int.floor y % 2 = 0 then Int.floor y else Int.floor y + 1) ≤ hi := by
  have hm1 : lo ≤ Int.floor y := Int.le_floor.mpr hlo
  have hm2 : Int.floor y ≤ hi := by
    have : ((Int.floor y : ℤ) : ℚ) ≤ hi := (Int.floor_le y).trans hhi
    exact_mod_cast this
  have hup : ¬ (y - (Int.floor y : ℤ) < 1 / 2) → Int.floor y + 1 ≤ hi := by
    intro h
    have h1 : ((Int.floor y : ℤ) : ℚ) < y := by linarith [not_lt.mp h]
    have h2 : ((Int.floor y : ℤ) : ℚ) < hi := lt_of_lt_of_le h1 hhi
    have : Int.floor y < hi := by exact_mod_cast h2
    omega
  split_ifs with h1 h2 h3
  · exact ⟨hm1, hm2⟩
  · exact ⟨by omega, hup h1⟩
  · exact ⟨hm1, hm2⟩
  · exact ⟨by omega, hup h1⟩

/-- Rounding to binary64 keeps a value between the integers below `2^53`
that enclose it. -/
theorem binary64_between (x : ℚ) (A B : ℤ) (h0 : 0 ≤ A) (hA : (A : ℚ) ≤ x) (hB : x ≤ B)
    (hB53 : B < 2 ^ 53) :
    ∃ v : ℚ, binary64 x = .num v ∧ (A : ℚ) ≤ v ∧ v ≤ B := by
  by_cases hx : x = 0
  · subst hx
    exact ⟨0, by simp [binary64], hA, hB⟩
  have hA0 : (0 : ℚ) ≤ A := by exact_mod_cast h0
  have hxpos : 0 < x := lt_of_le_of_ne (hA0.trans hA) (Ne.symm hx)
  have hBq : (B : ℚ) < 2 ^ (53 : ℕ) := by exact_mod_cast hB53
  have hlog : Int.log 2 x < 53 := by
    have h2 : x < ((2 : ℕ) : ℚ) ^ (53 : ℤ) := by
      have : ((2 : ℕ) : ℚ) ^ (53 : ℤ) = 2 ^ (53 : ℕ) := by norm_num
      rw [this]
      exact lt_of_le_of_lt hB hBq
    exact (Int.lt_zpow_iff_log_lt (by norm_num) hxpos).mp h2
  have he : max (Int.log 2 x) (-1022) ≤ 52 := max_le (by omega) (by norm_num)
  obtain ⟨k, hk⟩ : ∃ k : ℕ, max (Int.log 2 x) (-1022) - 52 = -(k : ℤ) :=
    ⟨(52 - max (Int.log 2 x) (-1022)).toNat, by
      rw [Int.toNat_of_nonneg (by omega)]; ring⟩
  have hq : (2 : ℚ) ^ (max (Int.log 2 x) (-1022) - 52) = ((2 : ℚ) ^ k)⁻¹ := by
    rw [hk, zpow_neg, zpow_natCast]
  have hP : (0 : ℚ) < 2 ^ k := by positivity
  have hdiv : x / ((2 : ℚ) ^ k)⁻¹ = x * 2 ^ k := by
    rw [div_inv_eq_mul]
  have hlo : ((A * 2 ^ k : ℤ) : ℚ) ≤ x * 2 ^ k := by
    push_cast
    exact mul_le_mul_of_nonneg_right hA hP.le
  have hhi : x * 2 ^ k ≤ ((B * 2 ^ k : ℤ) : ℚ) := by
    push_cast
    exact mul_le_mul_of_nonneg_right hB hP.le
  have hn := nearest_between (x * 2 ^ k) (A * 2 ^ k) (B * 2 ^ k) hlo hhi
  unfold binary64
  simp only [hx, if_false, abs_of_pos hxpos, hq, hdiv, not_lt.mpr hxpos.le]
  generalize (if x * 2 ^ k - (Int.floor (x * 2 ^ k) : ℤ) < 1 / 2 then Int.floor (x * 2 ^ k)
      else if 1 / 2 < x * 2 ^ k - (Int.floor (x * 2 ^ k) : ℤ) then Int.floor (x * 2 ^ k) + 1
      else if Int.floor (x * 2 ^ k) % 2 = 0 then Int.floor (x * 2 ^ k)
      else Int.floor (x * 2 ^ k) + 1) = n at hn ⊢
  obtain ⟨hn1, hn2⟩ := hn
  have hv1 : (A : ℚ) ≤ n * ((2 : ℚ) ^ k)⁻¹ := by
    have : ((A * 2 ^ k : ℤ) : ℚ) ≤ n := by exact_mod_cast hn1
    push_cast at this
    rw [le_mul_inv_iff₀ hP]
    exact this
  have hv2 : (n : ℚ) * ((2 : ℚ) ^ k)⁻¹ ≤ B := by
    have : (n : ℚ) ≤ ((B * 2 ^ k : ℤ) : ℚ) := by exact_mod_cast hn2
    push_cast at this
    rw [mul_inv_le_iff₀ hP]
    exact this
  have hov : ¬ ((2 : ℚ) ^ (1024 : ℕ) ≤ n * ((2 : ℚ) ^ k)⁻¹) := by
    have h1 : (2 : ℚ) ^ (53 : ℕ) ≤ 2 ^ (1024 : ℕ) :=
      pow_le_pow_right₀ (by norm_num) (by norm_num)
    intro h
    linarith
  exact ⟨_, by rw [if_neg hov], hv1, hv2⟩
/-- The product of two finite values is the rounded rational product. -/
theorem jsMul_num (R : Rounding) (a b : ℚ) : jsMul R (.num a) (.num b) = R (a * b) := rfl

/-- The sum of two finite values is the rounded rational sum. -/
theorem jsAdd_num (R : Rounding) (a b : ℚ) : jsAdd R (.num a) (.num b) = R (a + b) := rfl

/-- The minimum of two finite values. -/
theorem jsMin_num (a b : ℚ) : jsMin (.num a) (.num b) = .num (min a b) := rfl

/-- The maximum of two finite values. -/
theorem jsMax_num (a b : ℚ) : jsMax (.num a) (.num b) = .num (max a b) := rfl

/-- Exact arithmetic keeps the rational. -/
theorem exact_apply (q : ℚ) : exact q = .num q := rfl

/-- In exact arithmetic `tempFactor` is the formula of the source. -/
theorem tempFactor_exact (temp : ℚ) :
    tempFactor exact temp = .num (max (7 / 10) (1 - |temp - 15| * (2 / 100))) := by
  simp [tempFactor, exact, jsMax, jsSub, jsMul, jsAbs]

/-- In exact arithmetic the four values of `updateDemo` for a multiplier
`a` found in the table. -/
theorem updateDemo_exact_values (power : ℤ) (activity : String) (temp : ℤ) (a : ℚ)
    (ha : activityTable exact activity = some (.num a)) :
    ∃ v, updateDemo exact power activity temp = .ok v ∧
      v.efficiency = .num (min 100 (85 * max (7 / 10) (1 - |(temp : ℚ) - 15| * (2 / 100)))) ∧
      v.energyGen = .num (max 3 ((power : ℚ) * (167 / 100) * a)) ∧
      v.oxygenProd =
        .num (min 100 (min 100 (85 * max (7 / 10) (1 - |(temp : ℚ) - 15| * (2 / 100))) * a)) := by
  refine ⟨_, rfl, ?_, ?_, ?_⟩ <;>
    simp only [activityMultiplier, ha, tempFactor_exact, Option.getD_some, jsMul_num,
      jsMin_num, jsMax_num, exact_apply]

/-- C1: for every demo input whose activity is low, moderate or high (and
every integer power and water temperature, in particular 1..5 and 0..30),
`updateDemo` in exact rational arithmetic returns finite values with
`0 ≤ oxygenProd ≤ 100`, `efficiency ≤ 100` and `energyGen ≥ 3`. -/
theorem updateDemo_outputs_bounded (power : ℤ) (activity : String) (temp : ℤ)
    (ha : activity = "low" ∨ activity = "moderate" ∨ activity = "high") :
    ∃ v eff en ox, updateDemo exact power activity temp = .ok v ∧
      v.efficiency = .num eff ∧ v.energyGen = .num en ∧ v.oxygenProd = .num ox ∧
      0 ≤ ox ∧ ox ≤ 100 ∧ eff ≤ 100 ∧ 3 ≤ en := by
  have key : ∃ a : ℚ, activityTable exact activity = some (.num a) ∧ 0 ≤ a := by
    rcases ha with h | h | h <;> subst h
    · exact ⟨8 / 10, by simp [activityTable, exact], by norm_num⟩
    · exact ⟨1, by simp [activityTable, exact], by norm_num⟩
    · exact ⟨13 / 10, by simp [activityTable, exact], by norm_num⟩
  obtain ⟨a, hta, ha0⟩ := key
  obtain ⟨v, hv, he, hen, hox⟩ := updateDemo_exact_values power activity temp a hta
  refine ⟨v, _, _, _, hv, he, hen, hox, ?_, min_le_left _ _, min_le_left _ _, le_max_left _ _⟩
  have h1 : (0 : ℚ) ≤ 85 * max (7 / 10) (1 - |(temp : ℚ) - 15| * (2 / 100)) := by
    have := le_max_left (7 / 10 : ℚ) (1 - |(temp : ℚ) - 15| * (2 / 100))
    linarith
  have h2 : (0 : ℚ) ≤ min 100 (85 * max (7 / 10) (1 - |(temp : ℚ) - 15| * (2 / 100))) :=
    le_min (by norm_num) h1
  exact le_min (by norm_num) (mul_nonneg h2 ha0)

/-- The bounds of C1 at power 3, moderate activity, 15 degrees. -/
theorem updateDemo_outputs_bounded_witness :
    ∃ v eff en ox, updateDemo exact 3 "moderate" 15 = .ok v ∧
      v.efficiency = .num eff ∧ v.energyGen = .num en ∧ v.oxygenProd = .num ox ∧
      0 ≤ ox ∧ ox ≤ 100 ∧ eff ≤ 100 ∧ 3 ≤ en :=
  updateDemo_outputs_bounded 3 "moderate" 15 (by decide)

/-- C2: for every water temperature (in particular every one in `[0, 30]`),
`tempFactor` in exact arithmetic is a number in `[0.7, 1.0]` that equals
`1.0` exactly at 15; and in the binary64 arithmetic of the engine the same
holds at each integer temperature 0..30, with `0.7` read as the double the
literal denotes. -/
theorem tempFactor_range :
    (∀ temp : ℚ, ∃ f : ℚ, tempFactor exact temp = .num f ∧
      f = max (7 / 10) (1 - |temp - 15| * (2 / 100)) ∧
      7 / 10 ≤ f ∧ f ≤ 1 ∧ (f = 1 ↔ temp = 15)) ∧
    (∀ n : Fin 31,
      jsMax (binary64 (7 / 10)) (tempFactor binary64 (n.val : ℚ)) = tempFactor binary64 (n.val : ℚ) ∧
      jsMin (tempFactor binary64 (n.val : ℚ)) (.num 1) = tempFactor binary64 (n.val : ℚ) ∧
      (tempFactor binary64 (n.val : ℚ) = .num 1 ↔ n.val = 15)) := by
  refine ⟨fun temp => ⟨_, tempFactor_exact temp, rfl, le_max_left _ _, ?_, ?_⟩, by decide!⟩
  · have h := abs_nonneg (temp - 15)
    apply max_le <;> linarith
  · have h := abs_nonneg (temp - 15)
    constructor
    · intro hf
      rcases max_cases (7 / 10 : ℚ) (1 - |temp - 15| * (2 / 100)) with ⟨h1, _⟩ | ⟨h1, _⟩
      · rw [h1] at hf; norm_num at hf
      · rw [h1] at hf
        have h0 : |temp - 15| = 0 := by linarith
        have := abs_eq_zero.mp h0
        linarith
    · intro ht
      subst ht
      norm_num

/-- Any product with NaN on the right is NaN. -/
theorem jsMul_nan_right (R : Rounding) (x : JSNum) : jsMul R x .nan = .nan := by
  cases x <;> rfl

/-- C4, counterexample: with the activity level `extreme`, which is none of
low, moderate, high, `updateDemo` raises nothing: it returns normally, with
NaN for the energy and the oxygen production, shown as `NaN kWh` and
`NaN%`. -/
theorem updateDemo_unknown_activity_no_error :
    ∃ v, updateDemo binary64 3 "extreme" 15 = .ok v ∧ v =
          { tempFactor := .num 1
            efficiency := .num 85
            energyGen := .nan
            oxygenProd := .nan
            powerValue := some "3 kWh"
            tempValue := some "15Â°C"
            oxygenOutput := some "NaN%"
            energyOutput := some "NaN kWh"
            efficiencyOutput := some "85%" } :=
  ⟨_, rfl, by decide!⟩

/-- C4, amended: `updateDemo` returns normally for every input and either
rounding.  When the activity is low, moderate or high the multiplier is the
table entry (0.8, 1.0, 1.3) and enters the energy and the oxygen production;
for any other activity both of these are NaN, shown as `NaN kWh` and
`NaN%`, and no error is raised.  The temperature factor, the efficiency and
its display do not depend on the activity: they are what a valid activity
gives, and in exact arithmetic the efficiency is the number
`min(100, 85 * max(0.7, 1 - |temp - 15| * 0.02))`. -/
theorem updateDemo_never_fails (R : Rounding) (power : ℤ) (activity : String) (temp : ℤ) :
    ∃ v, updateDemo R power activity temp = .ok v ∧
      ((activity = "low" ∧ activityMultiplier R activity = R (8 / 10)) ∨
       (activity = "moderate" ∧ activityMultiplier R activity = R 1) ∨
       (activity = "high" ∧ activityMultiplier R activity = R (13 / 10)) ∨
       ((activity ≠ "low" ∧ activity ≠ "moderate" ∧ activity ≠ "high") ∧
         v.energyGen = .nan ∧ v.oxygenProd = .nan ∧
         v.energyOutput = some "NaN kWh" ∧ v.oxygenOutput = some "NaN%")) ∧
      v.energyGen =
        jsMax (.num 3) (jsMul R (jsMul R (R power) (R (167 / 100))) (activityMultiplier R activity)) ∧
      v.oxygenProd = jsMin (.num 100) (jsMul R v.efficiency (activityMultiplier R activity)) ∧
      v.tempFactor = tempFactor R temp ∧
      v.efficiency = jsMin (.num 100) (jsMul R (.num 85) (tempFactor R temp)) ∧
      v.efficiencyOutput = withUnit (jsToString (jsRound v.efficiency)) "%" ∧
      (∃ v2, updateDemo R power "moderate" temp = .ok v2 ∧ v2.tempFactor = v.tempFactor ∧
        v2.efficiency = v.efficiency ∧ v2.efficiencyOutput = v.efficiencyOutput) ∧
      (∃ v3, updateDemo exact power activity temp = .ok v3 ∧
        v3.tempFactor = .num (max (7 / 10) (1 - |(temp : ℚ) - 15| * (2 / 100))) ∧
        v3.efficiency =
          .num (min 100 (85 * max (7 / 10) (1 - |(temp : ℚ) - 15| * (2 / 100))))) := by
  refine ⟨_, rfl, ?_, rfl, rfl, rfl, rfl, rfl, ⟨_, rfl, rfl, rfl, rfl⟩, ⟨_, rfl, ?_, ?_⟩⟩
  · by_cases h1 : activity = "low"
    · exact Or.inl ⟨h1, by simp [activityMultiplier, activityTable, h1]⟩
    by_cases h2 : activity = "moderate"
    · exact Or.inr (Or.inl ⟨h2, by simp [activityMultiplier, activityTable, h2]⟩)
    by_cases h3 : activity = "high"
    · exact Or.inr (Or.inr (Or.inl ⟨h3, by simp [activityMultiplier, activityTable, h3]⟩))
    · have hm : activityMultiplier R activity = .nan := by
        simp [activityMultiplier, activityTable, h1, h2, h3]
      refine Or.inr (Or.inr (Or.inr ⟨⟨h1, h2, h3⟩, ?_, ?_, ?_, ?_⟩)) <;>
        simp only [hm, jsMul_nan_right] <;> rfl
  · simp only [tempFactor_exact]
  · simp only [tempFactor_exact, jsMul_num, jsMin_num, exact_apply]

/-- The exact-arithmetic values at power 1, low activity, 30 degrees are the
ones the scenario lists: 0.7, 59.5, 3.0, 47.6, and 59.5 rounds to 60. -/
theorem updateDemo_scenario_exact :
    ∃ v, updateDemo exact 1 "low" 30 = .ok v ∧ v =
          { tempFactor := .num (7 / 10)
            efficiency := .num (595 / 10)
            energyGen := .num 3
            oxygenProd := .num (476 / 10)
            powerValue := some "1 kWh"
            tempValue := some "30Â°C"
            oxygenOutput := some "48%"
            energyOutput := some "3.0 kWh"
            efficiencyOutput := some "60%" } :=
  ⟨_, rfl, by decide!⟩

/-- C5, counterexample: in the binary64 arithmetic the script runs in, the
efficiency at power 1, low activity, 30 degrees is not 59.5 and its display
is not `60%`: the double `0.7` is `6305039478318694 / 2^53`, a little below
7/10, and 85 times it, `59.5 - 0.53 * 2^-47`, rounds to the double
`59.5 - 2^-47`, which `Math.round` takes to 59. -/
theorem updateDemo_scenario_efficiency_not_60 :
    ∃ v, updateDemo binary64 1 "low" 30 = .ok v ∧
      v.efficiency = .num (595 / 10 - 1 / 2 ^ 47) ∧
      v.efficiency ≠ .num (595 / 10) ∧
      v.efficiencyOutput = some "59%" ∧
      v.efficiencyOutput ≠ some "60%" := by
  refine ⟨_, rfl, ?_, ?_, ?_, ?_⟩ <;> decide!

/-- C5, amended: at power 1, low activity, 30 degrees `updateDemo` computes,
in binary64, tempFactor the double 0.7, efficiency `59.5 - 2^-47`
(59.49999999999999), energy 3 and oxygen production the double next to 47.6
(`1674776111428403 / 2^45`), and displays efficiency `59%`, energy
`3.0 kWh` and oxygen production `48%`; the figures 0.7, 59.5, 3.0, 47.6 and
the display `60%` are those of exact arithmetic. -/
theorem updateDemo_scenario_binary64 :
    (∃ v, updateDemo binary64 1 "low" 30 = .ok v ∧ v =
          { tempFactor := .num (6305039478318694 / 2 ^ 53)
            efficiency := .num (595 / 10 - 1 / 2 ^ 47)
            energyGen := .num 3
            oxygenProd := .num (1674776111428403 / 2 ^ 45)
            powerValue := some "1 kWh"
            tempValue := some "30Â°C"
            oxygenOutput := some "48%"
            energyOutput := some "3.0 kWh"
            efficiencyOutput := some "59%" }) ∧
    (∃ v, updateDemo exact 1 "low" 30 = .ok v ∧
      v.tempFactor = .num (7 / 10) ∧ v.efficiency = .num (595 / 10) ∧
      v.energyGen = .num 3 ∧ v.oxygenProd = .num (476 / 10) ∧
      v.efficiencyOutput = some "60%" ∧ v.energyOutput = some "3.0 kWh" ∧
      v.oxygenOutput = some "48%") := by
  refine ⟨⟨_, rfl, by decide!⟩, _, rfl, ?_, ?_, ?_, ?_, ?_, ?_, ?_⟩ <;> decide!

/-- C3, counterexample: a tick whose first random draw is 0.9 sets
`metrics.oxygenRate` to 104, above 100; and for the largest draw below 1,
`1 - 2^-53`, the two roundings of binary64 give exactly 105 and 90. -/
theorem liveMetricsTick_oxygen_above_100 :
    (liveMetricsTick binary64 (construct samplePage 1) (9 / 10) (1 / 2)).metrics.oxygenRate =
      .num 104 ∧
    jsGt (liveMetricsTick binary64 (construct samplePage 1) (9 / 10) (1 / 2)).metrics.oxygenRate
      (.num 100) = true ∧
    (liveMetricsTick binary64 (construct samplePage 1) (1 - 1 / 2 ^ 53)
      (1 - 1 / 2 ^ 53)).metrics.oxygenRate = .num 105 ∧
    (liveMetricsTick binary64 (construct samplePage 1) (1 - 1 / 2 ^ 53)
      (1 - 1 / 2 ^ 53)).metrics.efficiency = .num 90 := by
  decide!

/-- In binary64, `base + r * 10` for a draw `r` in `[0, 1)` and a base of
95 or 80 is a number between `base` and `base + 10`, both ends included. -/
theorem tick_value_binary64 (base : ℤ) (r : ℚ) (hb : 0 ≤ base ∧ base ≤ 1000)
    (hr : 0 ≤ r ∧ r < 1) :
    ∃ v : ℚ, jsAdd binary64 (.num base) (jsMul binary64 (.num r) (.num 10)) = .num v ∧
      (base : ℚ) ≤ v ∧ v ≤ base + 10 := by
  obtain ⟨p, hp, hp0, hp10⟩ := binary64_between (r * 10) 0 10 (le_refl _)
    (by push_cast; linarith [hr.1]) (by push_cast; linarith [hr.2]) (by norm_num)
  push_cast at hp0 hp10
  have hb1 : (0 : ℚ) ≤ base := by exact_mod_cast hb.1
  obtain ⟨v, hv, hv0, hv10⟩ := binary64_between (base + p) base (base + 10) hb.1
    (by linarith) (by push_cast; linarith) (by have := hb.2; norm_num; omega)
  push_cast at hv10
  exact ⟨v, by rw [jsMul_num, hp, jsAdd_num, hv], hv0, hv10⟩

/-- C3, amended: after a tick of the metrics interval with draws in
`[0, 1)`, in the binary64 arithmetic of the script `oxygenRate` is a number
in `[95, 105]` and `efficiency` a number in `[80, 90]`, hence in `[0, 100]`
(in exact arithmetic the upper ends are excluded); a tick of the monitoring
interval and a demo update leave the metrics record as it was. -/
theorem liveMetricsTick_ranges (s : System) (r1 r2 : ℚ)
    (h1 : 0 ≤ r1 ∧ r1 < 1) (h2 : 0 ≤ r2 ∧ r2 < 1) :
    (∃ o e : ℚ, (liveMetricsTick binary64 s r1 r2).metrics.oxygenRate = .num o ∧
      (liveMetricsTick binary64 s r1 r2).metrics.efficiency = .num e ∧
      (95 ≤ o ∧ o ≤ 105) ∧ (80 ≤ e ∧ e ≤ 90) ∧ (0 ≤ e ∧ e ≤ 100)) ∧
    (∃ o e : ℚ, (liveMetricsTick exact s r1 r2).metrics.oxygenRate = .num o ∧
      (liveMetricsTick exact s r1 r2).metrics.efficiency = .num e ∧
      (95 ≤ o ∧ o < 105) ∧ (80 ≤ e ∧ e < 90)) ∧
    (∀ R rand, (monitoringTick R s rand).metrics = s.metrics) ∧
    (∀ R power activity temp,
      ∃ s2, demoUpdate R s power activity temp = .ok s2 ∧ s2.metrics = s.metrics) := by
  obtain ⟨o, ho, ho1, ho2⟩ := tick_value_binary64 95 r1 (by norm_num) h1
  obtain ⟨e, he, he1, he2⟩ := tick_value_binary64 80 r2 (by norm_num) h2
  push_cast at ho ho1 ho2 he he1 he2
  obtain ⟨h1a, h1b⟩ := h1
  obtain ⟨h2a, h2b⟩ := h2
  refine ⟨⟨o, e, ho, he, ⟨ho1, by linarith⟩, ⟨he1, by linarith⟩, by linarith, by linarith⟩,
    ⟨95 + r1 * 10, 80 + r2 * 10, rfl, rfl, ⟨by linarith, by linarith⟩,
      ⟨by linarith, by linarith⟩⟩,
    fun _ _ => rfl, fun R power activity temp => ⟨_, rfl, rfl⟩⟩

/-- The ranges of C3 at the draws 0.9 and 0.5 on a freshly built system. -/
theorem liveMetricsTick_ranges_witness :
    ∃ o e : ℚ,
      (liveMetricsTick binary64 (construct samplePage 1) (9 / 10) (1 / 2)).metrics.oxygenRate =
        .num o ∧
      (liveMetricsTick binary64 (construct samplePage 1) (9 / 10) (1 / 2)).metrics.efficiency =
        .num e ∧
      (95 ≤ o ∧ o ≤ 105) ∧ (80 ≤ e ∧ e ≤ 90) ∧ (0 ≤ e ∧ e ≤ 100) :=
  (liveMetricsTick_ranges (construct samplePage 1) (9 / 10) (1 / 2)
    (by norm_num) (by norm_num)).1

/-- C6, counterexample: with a negative `scrollY` (elastic overscroll) the
value is negative, and when the document is exactly as tall as the viewport
and `scrollY` is 0 it is NaN; `handleScroll` hands the negative value on, so
the hero element gets `translateY(-0.5px)`. -/
theorem scrollPercent_not_clamped :
    scrollPercent exact (-10) 2000 1000 = .num (-1 / 100) ∧
    scrollPercent exact 0 800 800 = .nan ∧
    ∃ p, handleScroll exact samplePage (-10) 2000 1000 = .ok p ∧
      querySelector p ".hero-visual" = some { transform := .translateY (.num (-1 / 2)) } := by
  refine ⟨by decide!, by decide!, _, rfl, by decide!⟩

/-- C6, amended: `scrollPercent` is `min(scrollY / (scrollHeight -
innerHeight), 1)` with no lower bound; when `scrollY ≥ 0` and the document is
taller than the viewport it equals `clamp(scrollY / (scrollHeight -
innerHeight), 0, 1)`, lies in `[0, 1]`, and is the value `handleScroll`
passes to `updateParallaxElements`. -/
theorem scrollPercent_clamped (scrollY scrollHeight innerHeight : ℚ)
    (h0 : 0 ≤ scrollY) (hd : innerHeight < scrollHeight) :
    scrollPercent exact scrollY scrollHeight innerHeight =
      .num (max 0 (min (scrollY / (scrollHeight - innerHeight)) 1)) ∧
    0 ≤ max 0 (min (scrollY / (scrollHeight - innerHeight)) 1) ∧
    max 0 (min (scrollY / (scrollHeight - innerHeight)) 1) ≤ 1 ∧
    ∀ (p : Page) (nav : ElemStyle),
      handleScroll exact { p with navbar := some nav } scrollY scrollHeight innerHeight =
        updateParallaxElements exact { p with navbar := some (navbarStyle scrollY nav) }
          (.num (max 0 (min (scrollY / (scrollHeight - innerHeight)) 1))) := by
  have hpos : 0 < scrollHeight - innerHeight := by linarith
  have hq : 0 ≤ scrollY / (scrollHeight - innerHeight) := div_nonneg h0 hpos.le
  have hm : 0 ≤ min (scrollY / (scrollHeight - innerHeight)) 1 := le_min hq (by norm_num)
  have hsp : scrollPercent exact scrollY scrollHeight innerHeight =
      .num (max 0 (min (scrollY / (scrollHeight - innerHeight)) 1)) := by
    simp only [scrollPercent, jsSub, jsDiv, exact_apply, ne_of_gt hpos, if_false, jsMin_num,
      max_eq_right hm]
  refine ⟨hsp, le_max_left _ _, ?_, ?_⟩
  · rw [max_eq_right hm]; exact min_le_right _ _
  · intro p nav
    simp only [handleScroll, hsp]

/-- The clamp of C6 at `scrollY = 500` on a 2000 px document in a 1000 px
viewport. -/
theorem scrollPercent_clamped_witness :
    scrollPercent exact 500 2000 1000 = .num (max 0 (min (500 / (2000 - 1000)) 1)) :=
  (scrollPercent_clamped 500 2000 1000 (by norm_num) (by norm_num)).1

/-- C7: after the constructor and `destroy()`, the 5000 ms monitoring
interval is gone but the 2000 ms metrics interval that `updateLiveMetrics`
registered is still active, and when it comes due its callback still runs:
on the sample page a draw of 0.9 moves `oxygenRate` from 100 to 104 and
switches the third indicator on after teardown. -/
theorem destroy_keeps_metrics_interval :
    (∀ (page : Page) (n : ℕ),
      (destroy (construct page (n + 1))).intervals =
        [{ id := n + 2, period := 2000, callback := .liveMetrics }] ∧
      (∀ R rand, fire R (destroy (construct page (n + 1))) (n + 1) rand =
        destroy (construct page (n + 1))) ∧
      (∀ R rand, fire R (destroy (construct page (n + 1))) (n + 2) rand =
        liveMetricsTick R (destroy (construct page (n + 1))) (rand 0) (rand 1))) ∧
    (destroy (construct samplePage 1)).metrics.oxygenRate = .num 100 ∧
    (fire binary64 (destroy (construct samplePage 1)) 2 (fun _ => 9 / 10)).metrics.oxygenRate =
      .num 104 ∧
    (fire exact (destroy (construct samplePage 1)) 2 (fun _ => 9 / 10)).metrics.oxygenRate =
      .num 104 ∧
    (destroy (construct samplePage 1)).page.indicators = [true, true, false] ∧
    (fire binary64 (destroy (construct samplePage 1)) 2 (fun _ => 9 / 10)).page.indicators =
      [true, true, true] := by
  refine ⟨fun page n => ?_, by decide!, by decide!, by decide!, by decide!, by decide!⟩
  have hI : (destroy (construct page (n + 1))).intervals =
      [{ id := n + 2, period := 2000, callback := .liveMetrics }] := by
    have hne : (n + 1 != n) = true := by simp
    simp [destroy, construct, startAnimations, setupEventListeners, updateLiveMetrics,
      startSystemMonitoring, setInterval, init, clearInterval, List.filter, hne]
  refine ⟨hI, fun R rand => ?_, fun R rand => ?_⟩
  · simp [fire, hI, List.find?]
  · simp [fire, hI, List.find?]

/-- C10: on a page without `.nav`, `handleScroll` throws a TypeError for
every scroll position and never reaches `updateParallaxElements`, whereas
`updateParallaxElements` and `highlightSystemFeature` return normally and
change nothing when their targets are absent. -/
theorem handleScroll_throws_without_navbar :
    (∀ (R : Rounding) (doc : List (String × ElemStyle)) (inds : List Bool)
        (lines vents : List String) (scrollY scrollHeight innerHeight : ℚ),
      handleScroll R
          { navbar := none, document := doc, indicators := inds, screenLines := lines,
            vents := vents } scrollY scrollHeight innerHeight =
        .error (.typeError "Cannot read properties of null")) ∧
    (∀ (R : Rounding) (sp : JSNum), updateParallaxElements R barePage sp = .ok barePage) ∧
    (highlightSystemFeature barePage "intake" = .ok barePage ∧
      highlightSystemFeature barePage "monitoring" = .ok barePage ∧
      highlightSystemFeature barePage "unknown" = .ok barePage) := by
  exact ⟨fun R doc inds lines vents sy H V => rfl, fun R sp => rfl, rfl, rfl, rfl⟩

/-- One scroll event inside the window, with `func` returning normally,
keeps the invariant. -/
theorem scrollEvent_inv (T W limit : ℕ) (s : Throttle) (e : Scroll)
    (hs : ThrottleInv T W limit s) (hn : e.throws = false)
    (ht : T ≤ e.time ∧ e.time < T + W) :
    ThrottleInv T W limit (scrollEvent limit s e) := by
  obtain ⟨t, lag, thr⟩ := e
  simp only at ht hn
  subst hn
  rcases hs with hs | ⟨c, rest, lg, hc, hin, htm, hlow, hup⟩
  · subst hs
    refine Or.inr ⟨t, [], lag, ?_, ?_, ?_, ?_, ht.2⟩ <;>
      simp [scrollEvent, throttled, runTimers, Throttle.fresh, ht.1]
  · by_cases hdue : c + limit + lg ≤ t
    · refine Or.inr ⟨t, c :: rest, lag, ?_, ?_, ?_, ?_, ht.2⟩
      · simp [scrollEvent, throttled, runTimers, htm, hdue, hc]
      · simp [scrollEvent, throttled, runTimers, htm, hdue]
      · simp [scrollEvent, throttled, runTimers, htm, hdue]
      · simp only [List.length_cons]
        have : (rest.length + 1) * limit = rest.length * limit + limit := by ring
        omega
    · have hsame : scrollEvent limit s { time := t, lag := lag, throws := false } = s := by
        cases s with
        | mk i tm cl =>
          simp only at hin htm
          subst hin htm
          simp [scrollEvent, throttled, runTimers, hdue]
      rw [hsame]
      exact Or.inr ⟨c, rest, lg, hc, hin, htm, hlow, hup⟩

/-- A run of scroll events inside the window, with `func` returning
normally, keeps the invariant. -/
theorem foldl_scrollEvent_inv (T W limit : ℕ) (events : List Scroll) :
    ∀ s : Throttle, ThrottleInv T W limit s →
      (∀ e ∈ events, e.throws = false ∧ T ≤ e.time ∧ e.time < T + W) →
      ThrottleInv T W limit (events.foldl (scrollEvent limit) s) := by
  induction events with
  | nil => intro s hs _; exact hs
  | cons e es ih =>
    intro s hs h
    simp only [List.foldl_cons]
    have he := h e (List.mem_cons_self _ _)
    exact ih _ (scrollEvent_inv T W limit s e hs he.1 he.2)
      (fun u hu => h u (List.mem_cons_of_mem _ hu))

/-- The count of calls in a window, for any limit and window length, when
`func` returns normally: the calls before the newest one, each `limit`
apart, fit strictly inside `W`. -/
theorem runEvents_calls_bound (T W limit : ℕ) (events : List Scroll)
    (h : ∀ e ∈ events, e.throws = false ∧ T ≤ e.time ∧ e.time < T + W) :
    (runEvents limit events).calls = [] ∨
      ((runEvents limit events).calls.length - 1) * limit < W := by
  have hinv := foldl_scrollEvent_inv T W limit events Throttle.fresh (Or.inl rfl) h
  rcases hinv with hf | ⟨c, rest, lg, hc, _, _, hlow, hup⟩
  · left
    unfold runEvents
    rw [hf]
    rfl
  · right
    unfold runEvents
    rw [hc]
    simp only [List.length_cons, Nat.add_sub_cancel]
    omega

/-- C8, counterexample: with a `func` that throws on every call (the
repository's own `handleScroll` on a page without `.nav`) `inThrottle` is
never set, and the 100 events at 0, 1, ..., 99 ms call `func` 100 times; and
with a `func` that returns normally, the events at 0, 16, ..., 160 ms, the
last a full 160 ms after the first, call it 11 times when each timeout runs
the millisecond it is due. -/
theorem throttle_more_than_ten_calls :
    (throwing (List.range 100)).length = 100 ∧
    (runEvents 16 (throwing (List.range 100))).calls.length = 100 ∧
    (runEvents 16 (throwing (List.range 100))).inThrottle = false ∧
    (runEvents 16 (onTime [0, 16, 32, 48, 64, 80, 96, 112, 128, 144, 160])).calls.length
      = 11 := by
  decide!

/-- C8, amended: when `func` returns normally on every call, scroll events
(100 of them in particular) whose times span at most `W ≤ 160` ms, from `T`
to `T + W` inclusive, make the function returned by `throttle(func, 16)` call
`func` at most 10 times if `W < 160` and at most 11 times if `W = 160`,
whether each timeout clears the flag the millisecond it is due or later. -/
theorem throttle_calls_bound (T W : ℕ) (events : List Scroll) (hW : W ≤ 160)
    (hnorm : ∀ e ∈ events, e.throws = false)
    (hwin : ∀ e ∈ events, T ≤ e.time ∧ e.time ≤ T + W) :
    (runEvents 16 events).calls.length ≤ (if W < 160 then 10 else 11) := by
  have h : ∀ e ∈ events, e.throws = false ∧ T ≤ e.time ∧ e.time < T + (W + 1) :=
    fun e he => ⟨hnorm e he, (hwin e he).1, by have := (hwin e he).2; omega⟩
  rcases runEvents_calls_bound T (W + 1) 16 events h with h0 | h0
  · rw [h0]
    split_ifs <;> simp
  · split_ifs with hlt
    · omega
    · omega

/-- The bound of C8 on the 100 events at the times 0, 1, ..., 99 with
timeouts on time and `func` returning normally: a span of 99 ms, at most 10
calls. -/
theorem throttle_calls_bound_witness :
    (onTime (List.range 100)).length = 100 ∧
      (runEvents 16 (onTime (List.range 100))).calls.length ≤ (if 99 < 160 then 10 else 11) :=
  ⟨by simp [onTime], throttle_calls_bound 0 99 (onTime (List.range 100)) (by norm_num)
    (fun e he => by
      simp only [onTime, List.mem_map, List.mem_range] at he
      obtain ⟨t, _, rfl⟩ := he
      rfl)
    (fun e he => by
      simp only [onTime, List.mem_map, List.mem_range] at he
      obtain ⟨t, ht, rfl⟩ := he
      exact ⟨Nat.zero_le _, by simp only; omega⟩)⟩

/-- On the 100 events at 0, 1, ..., 99 with `func` returning normally the
calls are those at 0, 16, 32, 48, 64, 80 and 96. -/
theorem throttle_runs :
    (runEvents 16 (onTime (List.range 100))).calls = [96, 80, 64, 48, 32, 16, 0] := by
  decide!

/-- C9, counterexample: in the burst of events at 0 ms and 5 ms the second
event arrives while `inThrottle` is set; after every timeout has run `func`
has been called for the event at 0 only, so the last event of the burst
never reaches the handler. -/
theorem throttle_drops_last_event :
    (settle (runEvents 16 (onTime [0, 5]))).calls = [0] ∧
      5 ∉ (settle (runEvents 16 (onTime [0, 5]))).calls := by
  decide

/-- A burst that stays inside the limit window of its first event leaves the
state the first event produced, whatever `func` would do. -/
theorem foldl_scrollEvent_burst (limit t0 lag0 : ℕ) (rest : List Scroll)
    (h : ∀ e ∈ rest, e.time < t0 + limit) :
    rest.foldl (scrollEvent limit)
        { inThrottle := true, timers := [t0 + limit + lag0], calls := [t0] } =
      { inThrottle := true, timers := [t0 + limit + lag0], calls := [t0] } := by
  induction rest with
  | nil => rfl
  | cons e es ih =>
    have ht : ¬ t0 + limit + lag0 ≤ e.time := by
      have := h e (List.mem_cons_self _ _)
      omega
    have hstep : scrollEvent limit
        { inThrottle := true, timers := [t0 + limit + lag0], calls := [t0] } e =
        { inThrottle := true, timers := [t0 + limit + lag0], calls := [t0] } := by
      simp [scrollEvent, throttled, runTimers, ht]
    simp only [List.foldl_cons, hstep]
    exact ih (fun u hu => h u (List.mem_cons_of_mem _ hu))

/-- C9, amended: the throttle is leading-edge only.  An event is handed to
`func` exactly when `inThrottle` is clear as it arrives, and then at once;
an event that arrives while the flag is set is dropped, and the timeout that
ends the window only clears the flag, so the calls never grow later.  The
flag is set by a call that returns normally and left clear by a call that
throws.  Hence of a burst whose events all arrive less than `limit` ms after
a first event for which `func` returns normally, only that first event is
handled; after a first event for which `func` throws, the next event is
handed to `func` as well. -/
theorem throttle_leading_edge_only (limit t0 lag0 : ℕ) (rest : List Scroll)
    (h : ∀ e ∈ rest, e.time < t0 + limit) :
    (∀ (s : Throttle) (e : Scroll),
      (scrollEvent limit s e).calls =
        (if (runTimers s e.time).inThrottle then s.calls else e.time :: s.calls) ∧
      (scrollEvent limit s e).inThrottle = ((runTimers s e.time).inThrottle || !e.throws)) ∧
    (∀ s : Throttle, (settle s).calls = s.calls) ∧
    (runEvents limit ({ time := t0, lag := lag0, throws := false } :: rest)).calls = [t0] ∧
    (settle (runEvents limit ({ time := t0, lag := lag0, throws := false } :: rest))).calls =
      [t0] ∧
    (settle (runEvents limit
      ({ time := t0, lag := lag0, throws := false } :: rest))).inThrottle = false ∧
    (∀ e : Scroll,
      (runEvents limit [{ time := t0, lag := lag0, throws := true }, e]).calls =
        [e.time, t0]) := by
  have h0 : scrollEvent limit Throttle.fresh { time := t0, lag := lag0, throws := false } =
      { inThrottle := true, timers := [t0 + limit + lag0], calls := [t0] } := by
    simp [scrollEvent, throttled, runTimers, Throttle.fresh]
  have hrun : runEvents limit ({ time := t0, lag := lag0, throws := false } :: rest) =
      { inThrottle := true, timers := [t0 + limit + lag0], calls := [t0] } := by
    simp only [runEvents, List.foldl_cons, h0]
    exact foldl_scrollEvent_burst limit t0 lag0 rest h
  refine ⟨fun s e => ⟨?_, ?_⟩, fun s => rfl, ?_, ?_, ?_, fun e => ?_⟩
  · unfold scrollEvent throttled
    cases hflag : (runTimers s e.time).inThrottle <;> cases hthr : e.throws <;>
      simp [runTimers]
  · unfold scrollEvent throttled
    cases hflag : (runTimers s e.time).inThrottle <;> cases hthr : e.throws <;>
      simp [hflag]
  · rw [hrun]
  · rw [hrun]; rfl
  · rw [hrun]; rfl
  · cases hthr : e.throws <;>
      simp [runEvents, scrollEvent, throttled, runTimers, Throttle.fresh, hthr]

/-- The burst 0, 5, 10 under a 16 ms limit with `func` returning normally:
only the event at 0 is handled. -/
theorem throttle_leading_edge_only_witness :
    (settle (runEvents 16 [{ time := 0, lag := 0, throws := false },
      { time := 5, lag := 0, throws := false }, { time := 10, lag := 0, throws := true }])).calls
      = [0] :=
  (throttle_leading_edge_only 16 0 0
    [{ time := 5, lag := 0, throws := false }, { time := 10, lag := 0, throws := true }]
    (by decide)).2.2.2.1

/-- C11: after `refreshMetricDisplays` the list of indicators has its old
length, and the indicator at index `i`, whatever its prior state, is active
if and only if `oxygenRate > 98` or `i < 2`, for every finite `oxygenRate`
(and with the JavaScript `>` for the non-finite ones); at exactly 98 only
the indices 0 and 1 are active. -/
theorem refreshMetricDisplays_indicators (m : Metrics) (p : Page) (i : ℕ) :
    (refreshMetricDisplays m p).indicators.length = p.indicators.length ∧
    (∀ q : ℚ, (refreshMetricDisplays { m with oxygenRate := .num q } p).indicators[i]? =
      (p.indicators[i]?).map (fun _ => decide (q > 98 ∨ i < 2))) ∧
    (refreshMetricDisplays m p).indicators[i]? =
      (p.indicators[i]?).map (fun _ => jsGt m.oxygenRate (.num 98) || decide (i < 2)) ∧
    (refreshMetricDisplays { m with oxygenRate := .num 98 } p).indicators[i]? =
      (p.indicators[i]?).map (fun _ => decide (i < 2)) := by
  refine ⟨?_, ?_, ?_, ?_⟩
  · simp [refreshMetricDisplays]
  · intro q
    simp only [refreshMetricDisplays, List.getElem?_mapIdx, jsGt]
    cases p.indicators[i]? with
    | none => rfl
    | some a =>
      simp only [Option.map_some']
      by_cases h1 : q > 98
      · simp [h1]
      · by_cases h2 : i < 2 <;> simp [h1, h2]
  · simp only [refreshMetricDisplays, List.getElem?_mapIdx]
    cases p.indicators[i]? with
    | none => rfl
    | some a =>
      simp only [Option.map_some']
      cases hg : jsGt m.oxygenRate (.num 98)
      · by_cases h2 : i < 2 <;> simp [h2]
      · simp
  · simp only [refreshMetricDisplays, List.getElem?_mapIdx, jsGt]
    cases p.indicators[i]? with
    | none => rfl
    | some a =>
      simp only [Option.map_some']
      by_cases h2 : i < 2 <;> simp [h2]

/-- C12: on a page with a navbar, for every `scrollY` and every prior navbar
style `handleScroll` returns normally and leaves the navbar opaque if and
only if `scrollY > 100`, translucent otherwise; so 99 and 100 give
translucent and 101 gives opaque, whatever the style was before. -/
theorem handleScroll_navbar_state (R : Rounding) (p : Page) (nav : ElemStyle)
    (scrollY scrollHeight innerHeight : ℚ) :
    (∃ p2 nav2,
      handleScroll R { p with navbar := some nav } scrollY scrollHeight innerHeight = .ok p2 ∧
      p2.navbar = some nav2 ∧
      (isOpaque nav2 ↔ scrollY > 100) ∧ (isTranslucent nav2 ↔ ¬ scrollY > 100)) ∧
    isTranslucent (navbarStyle 99 nav) ∧ isTranslucent (navbarStyle 100 nav) ∧
    isOpaque (navbarStyle 101 nav) := by
  refine ⟨⟨_, navbarStyle scrollY nav, rfl, rfl, ?_, ?_⟩, ?_, ?_, ?_⟩
  · by_cases h : scrollY > 100 <;> simp [isOpaque, navbarStyle, h]
  · by_cases h : scrollY > 100 <;> simp [isTranslucent, navbarStyle, h]
  · have h : ¬ ((99 : ℚ) > 100) := by norm_num
    simp [isTranslucent, navbarStyle, h]
  · have h : ¬ ((100 : ℚ) > 100) := by norm_num
    simp [isTranslucent, navbarStyle, h]
  · have h : (101 : ℚ) > 100 := by norm_num
    simp [isOpaque, navbarStyle, h]

/-- C14: a click on any feature card runs `animateCardSelection` (the ripple
is appended) and then throws a TypeError at `this.showFeatureDetails(feature)`,
a member the class does not define; the details display is not opened and
`playInteractionSound` is not reached. -/
theorem handleFeatureClick_throws :
    "showFeatureDetails" ∉ classMethods ∧
    (∀ w : ClickWorld,
      handleFeatureClick w =
        (animateCardSelection w,
          some (.typeError "this.showFeatureDetails is not a function")) ∧
      (handleFeatureClick w).1.soundCalls = w.soundCalls) ∧
    (handleFeatureClick sampleCard).1.ripples = [{ size := 300, left := 0, top := -50 }] := by
  have h1 : "showFeatureDetails" ∉ classMethods := by decide
  have h2 : "animateCardSelection" ∈ classMethods := by decide
  have key : ∀ w : ClickWorld, handleFeatureClick w =
      (animateCardSelection w,
        some (.typeError "this.showFeatureDetails is not a function")) := by
    intro w
    simp only [handleFeatureClick, callMethod, h1, h2, if_true, if_false]
    rfl
  refine ⟨h1, fun w => ⟨key w, ?_⟩, ?_⟩
  · rw [key]; rfl
  · rw [key]; decide!

/-- A list mapped by an indexed function that fixes each of its entries is
unchanged. -/
theorem mapIdx_eq_self {α : Type} (f : ℕ → α → α) (l : List α)
    (h : ∀ k a, l[k]? = some a → f k a = a) : l.mapIdx f = l := by
  apply List.ext_getElem?
  intro k
  rw [List.getElem?_mapIdx]
  cases hk : l[k]? with
  | none => rfl
  | some a => simp [h k a hk]

/-- The element at `(g2, i2)` after `modifyChild f g i`. -/
theorem elemAt_modifyChild (f : RevealElem → RevealElem) (g i g2 i2 : ℕ)
    (cs : List Container) :
    elemAt (modifyChild f g i cs) g2 i2 =
      (elemAt cs g2 i2).map (fun el => if g2 = g ∧ i2 = i then f el else el) := by
  simp only [elemAt, modifyChild, List.getElem?_mapIdx]
  cases cs[g2]? with
  | none => rfl
  | some c =>
    simp only [Option.map_some', Option.some_bind]
    by_cases hg : g2 = g
    · simp only [hg, if_true, List.getElem?_mapIdx, true_and]
    · simp only [hg, if_false, false_and]
      cases c.children[i2]? <;> rfl

/-- Revealing a Revealed element changes nothing. -/
theorem reveal_of_isRevealed (el : RevealElem) (h : isRevealed el) : reveal el = el := by
  cases el
  simp only [isRevealed] at h
  simp [reveal, h.1, h.2]

/-- Revealing twice is revealing once. -/
theorem reveal_reveal (el : RevealElem) : reveal (reveal el) = reveal el := rfl

/-- Nothing changed is a reveal-only step. -/
theorem revealOnly_refl (cs : List Container) : RevealOnly cs cs :=
  fun _ _ => Or.inl rfl

/-- Reveal-only steps compose. -/
theorem revealOnly_trans {a b c : List Container} (h1 : RevealOnly a b) (h2 : RevealOnly b c) :
    RevealOnly a c := by
  intro g i
  rcases h2 g i with e2 | e2 <;> rcases h1 g i with e1 | e1
  · exact Or.inl (e2.trans e1)
  · exact Or.inr (e2.trans e1)
  · exact Or.inr (by rw [e2, e1])
  · right
    rw [e2, e1]
    cases elemAt a g i <;> rfl

/-- Revealing one child is a reveal-only step. -/
theorem revealOnly_modifyChild (g i : ℕ) (cs : List Container) :
    RevealOnly cs (modifyChild reveal g i cs) := by
  intro g2 i2
  rw [elemAt_modifyChild]
  by_cases h : g2 = g ∧ i2 = i
  · right
    simp only [h, and_self, if_true]
  · left
    simp only [h, if_false]
    cases elemAt cs g2 i2 <;> rfl

/-- One entry of a notification is a reveal-only step. -/
theorem revealOnly_observeEntry (now : ℕ) (s : RevealState) (e : Entry) :
    RevealOnly s.containers (observeEntry now s e).containers := by
  unfold observeEntry
  by_cases hi : e.isIntersecting = true
  · simp only [hi, if_true]
    cases hp : (modifyChild reveal e.container e.child s.containers)[e.container]? with
    | none => exact revealOnly_modifyChild _ _ _
    | some parent =>
      by_cases hg : isGrid parent = true
      · simp only [hg, if_true, staggerGridAnimation]
        exact revealOnly_modifyChild _ _ _
      · simp only [hg]
        exact revealOnly_modifyChild _ _ _
  · simp only [hi]
    exact revealOnly_refl _

/-- A batch of entries is a reveal-only step. -/
theorem revealOnly_foldl_observeEntry (now : ℕ) (entries : List Entry) :
    ∀ s : RevealState,
      RevealOnly s.containers (entries.foldl (observeEntry now) s).containers := by
  induction entries with
  | nil => intro s; exact revealOnly_refl _
  | cons e es ih =>
    intro s
    simp only [List.foldl_cons]
    exact revealOnly_trans (revealOnly_observeEntry now s e) (ih _)

/-- A run of timeouts is a reveal-only step. -/
theorem revealOnly_foldl_runTimeout (ts : List Timeout) :
    ∀ cs : List Container, RevealOnly cs (ts.foldl runTimeout cs) := by
  induction ts with
  | nil => intro cs; exact revealOnly_refl _
  | cons t ts ih =>
    intro cs
    simp only [List.foldl_cons]
    exact revealOnly_trans (revealOnly_modifyChild _ _ _) (ih _)

/-- Revealing a child that is Revealed leaves the containers as they are. -/
theorem modifyChild_reveal_eq_self (g i : ℕ) (cs : List Container) (c : Container)
    (el : RevealElem) (hc : cs[g]? = some c) (hel : c.children[i]? = some el)
    (hrev : isRevealed el) : modifyChild reveal g i cs = cs := by
  unfold modifyChild
  apply mapIdx_eq_self
  intro k a hk
  by_cases hkg : k = g
  · subst hkg
    simp only [if_true]
    have hac : a = c := by
      rw [hc] at hk
      exact (Option.some.inj hk).symm
    subst hac
    have hch : a.children.mapIdx (fun j e => if j = i then reveal e else e) = a.children := by
      apply mapIdx_eq_self
      intro j e hj
      by_cases hji : j = i
      · subst hji
        rw [hel] at hj
        have : e = el := (Option.some.inj hj).symm
        subst this
        simp only [if_true]
        exact reveal_of_isRevealed e hrev
      · simp only [hji, if_false]
    rw [hch]
  · simp only [hkg, if_false]

/-- C13, counterexample: once the first card of the features grid is
Revealed and every timeout has run, a second notification for that card
calls `staggerGridAnimation` again and sets two new timeouts, one per child
of the grid; and the second card, which never intersected, was revealed by
the first notification of its sibling. -/
theorem renotify_schedules_again :
    elemAt settledReveal.containers 0 0 =
      some { animatable := true, opacity := "1", transform := "translateY(0)",
             transition := "opacity 0.6s ease, transform 0.6s ease" } ∧
    settledReveal.timeouts = [] ∧
    (observeEntry 2000 settledReveal
        { container := 0, child := 0, isIntersecting := true }).timeouts =
      [{ due := 2000, container := 0, child := 0 }, { due := 2100, container := 0, child := 1 }] ∧
    (elemAt (setupIntersectionObserver sampleContainers).containers 0 1).map (·.opacity) =
      some "0" ∧
    (elemAt settledReveal.containers 0 1).map (·.opacity) = some "1" := by
  decide

/-- C13, amended: every step of the scheduler, a notification batch or a
run of due timeouts, leaves each element as it was or sets it to Revealed,
so no target returns to Hidden and each target is revealed at most once.  A
notification for a target that is already Revealed changes no element; it
schedules nothing when the parent is no grid, but when the parent is one of
the three grids it calls `staggerGridAnimation` again, which sets one new
timeout per child of the grid. -/
theorem reveal_scheduler_steps (now : ℕ) (s : RevealState) (g i : ℕ) (c : Container)
    (el : RevealElem) (hc : s.containers[g]? = some c) (hel : c.children[i]? = some el)
    (hrev : isRevealed el) :
    (∀ t entries, RevealOnly s.containers (observerCallback t s entries).containers) ∧
    (∀ t, RevealOnly s.containers (runDue t s).containers) ∧
    (∀ t entries, elemAt (observerCallback t s entries).containers g i = some el) ∧
    (∀ t, elemAt (runDue t s).containers g i = some el) ∧
    (observeEntry now s { container := g, child := i, isIntersecting := true }).containers =
      s.containers ∧
    (observeEntry now s { container := g, child := i, isIntersecting := true }).timeouts =
      s.timeouts ++ (if isGrid c then staggerTimeouts now g c else []) ∧
    observeEntry now s { container := g, child := i, isIntersecting := false } = s := by
  have hat : elemAt s.containers g i = some el := by
    simp only [elemAt, hc, Option.some_bind, hel]
  have stay : ∀ cs2, RevealOnly s.containers cs2 → elemAt cs2 g i = some el := by
    intro cs2 h
    rcases h g i with e | e
    · rw [e, hat]
    · rw [e, hat, Option.map_some', reveal_of_isRevealed el hrev]
  have h1 : ∀ t entries, RevealOnly s.containers (observerCallback t s entries).containers :=
    fun t entries => revealOnly_foldl_observeEntry t entries s
  have h2 : ∀ t, RevealOnly s.containers (runDue t s).containers :=
    fun t => revealOnly_foldl_runTimeout _ _
  have hm := modifyChild_reveal_eq_self g i s.containers c el hc hel hrev
  refine ⟨h1, h2, fun t entries => stay _ (h1 t entries), fun t => stay _ (h2 t), ?_, ?_, rfl⟩
  · simp only [observeEntry, if_true, hm, hc]
    by_cases hg : isGrid c = true
    · simp only [hg, if_true, staggerGridAnimation]
    · simp [hg]
  · simp only [observeEntry, if_true, hm, hc]
    by_cases hg : isGrid c = true
    · simp only [hg, if_true, staggerGridAnimation]
    · simp [hg]

/-- The steps of C13 at the first card of the settled sample page. -/
theorem reveal_scheduler_steps_witness :
    (observeEntry 2000 settledReveal
        { container := 0, child := 0, isIntersecting := true }).containers =
      settledReveal.containers :=
  (reveal_scheduler_steps 2000 settledReveal 0 0
    { classList := ["features-grid"]
      children := [{ animatable := true, opacity := "1", transform := "translateY(0)",
                     transition := "opacity 0.6s ease, transform 0.6s ease" },
                   { animatable := true, opacity := "1", transform := "translateY(0)",
                     transition := "opacity 0.6s ease, transform 0.6s ease" }] }
    { animatable := true, opacity := "1", transform := "translateY(0)",
      transition := "opacity 0.6s ease, transform 0.6s ease" }
    (by decide) (by decide) ⟨rfl, rfl⟩).2.2.2.2.1

/-- The buffer a keydown leaves is never longer than ten keys. -/
theorem keydown_length (lower : String → String) (secret : List String) (key : String)
    (h : secret.length ≤ 10) : (keydown lower secret key).1.length ≤ 10 := by
  unfold keydown
  dsimp only
  split_ifs with h1 h2 h3
  · simp
  · simp only [List.length_tail, List.length_append, List.length_singleton]
    omega
  · simp
  · simp only [List.length_append, List.length_singleton] at h1 ⊢
    omega

/-- The buffer a keydown leaves is a suffix of the old buffer followed by
the new key. -/
theorem keydown_suffix (lower : String → String) (secret : List String) (key : String) :
    (keydown lower secret key).1 <:+ secret ++ [lower key] := by
  unfold keydown
  dsimp only
  split_ifs with h1 h2 h3
  · exact List.nil_suffix
  · exact List.tail_suffix _
  · exact List.nil_suffix
  · exact List.suffix_refl _

/-- On a buffer of at most ten keys, the push and the conditional shift
keep the last ten entries. -/
theorem kept_eq_lastTen (lower : String → String) (secret : List String) (key : String)
    (h : secret.length ≤ 10) :
    (if (secret ++ [lower key]).length > 10 then (secret ++ [lower key]).tail
      else secret ++ [lower key]) = lastTen (secret ++ [lower key]) := by
  unfold lastTen
  split
  · rename_i hlen
    have : (secret ++ [lower key]).length - 10 = 1 := by
      simp only [List.length_append, List.length_singleton] at hlen ⊢
      omega
    rw [this, List.drop_one]
  · rename_i hlen
    have : (secret ++ [lower key]).length - 10 = 0 := by omega
    rw [this, List.drop_zero]

/-- The invariants of the buffer along a run started from any buffer of at
most ten keys. -/
theorem foldl_keydown_inv (lower : String → String) (keys : List String) :
    ∀ (secret : List String) (typedBefore : List String), secret.length ≤ 10 →
      secret <:+ typedBefore →
      (keys.foldl (fun sec key => (keydown lower sec key).1) secret).length ≤ 10 ∧
      (keys.foldl (fun sec key => (keydown lower sec key).1) secret) <:+
        typedBefore ++ keys.map lower := by
  induction keys with
  | nil => intro secret tb h hs; simpa using ⟨h, hs⟩
  | cons k ks ih =>
    intro secret tb h hs
    simp only [List.foldl_cons, List.map_cons]
    have hsuf : (keydown lower secret k).1 <:+ tb ++ [lower k] := by
      refine (keydown_suffix lower secret k).trans ?_
      obtain ⟨pre, hpre⟩ := hs
      exact ⟨pre, by rw [← hpre, List.append_assoc]⟩
    have := ih (keydown lower secret k).1 (tb ++ [lower k]) (keydown_length lower secret k h) hsuf
    simpa [List.append_assoc] using this

/-- C15: the buffer starts empty at the page load and each keydown event
takes it to the buffer `keydown` leaves.  After every sequence of keydown
events the buffer holds at most 10 keys and is a suffix of the lowercased
keys typed; on the next keydown the retained keys are the last ten of the
buffer with the new lowercased key, the easter egg fires exactly when their
concatenation ends with `zion` or with `39`, and the buffer is then empty,
and otherwise it holds the retained keys. -/
theorem keydown_buffer (lower : String → String) (keys : List String) (key : String) :
    keydownRun lower [] = [] ∧
    keydownRun lower (keys ++ [key]) = (keydown lower (keydownRun lower keys) key).1 ∧
    (keydownRun lower keys).length ≤ 10 ∧
    keydownRun lower keys <:+ keys.map lower ∧
    ((keydown lower (keydownRun lower keys) key).2 = true ↔
      (endsWith (String.join (lastTen (keydownRun lower keys ++ [lower key]))) "zion" = true ∨
       endsWith (String.join (lastTen (keydownRun lower keys ++ [lower key]))) "39" = true)) ∧
    (keydown lower (keydownRun lower keys) key).1 =
      (if (keydown lower (keydownRun lower keys) key).2 then []
       else lastTen (keydownRun lower keys ++ [lower key])) ∧
    keydownRun lower (keys ++ [key]) =
      (if matchesTarget (String.join (lastTen (keydownRun lower keys ++ [lower key]))) then []
       else lastTen (keydownRun lower keys ++ [lower key])) ∧
    (keydown lower (keydownRun lower keys) key).1.length ≤ 10 := by
  have hinv := foldl_keydown_inv lower keys [] [] (by simp) (List.suffix_refl _)
  simp only [List.nil_append] at hinv
  obtain ⟨hlen, hsuf⟩ := hinv
  have hk := kept_eq_lastTen lower (keydownRun lower keys) key hlen
  have hstep : keydownRun lower (keys ++ [key]) =
      (keydown lower (keydownRun lower keys) key).1 := by
    simp [keydownRun, List.foldl_append]
  refine ⟨rfl, hstep, hlen, hsuf, ?_, ?_, ?_, keydown_length lower _ key hlen⟩
  · unfold keydown
    simp only [hk]
    by_cases hm :
        matchesTarget (String.join (lastTen (keydownRun lower keys ++ [lower key]))) = true
    · simp only [hm, if_true, true_iff]
      simpa [matchesTarget, targets] using hm
    · simp only [hm]
      simpa [matchesTarget, targets] using hm
  · unfold keydown
    simp only [hk]
    by_cases hm :
        matchesTarget (String.join (lastTen (keydownRun lower keys ++ [lower key]))) = true
    · simp [hm]
    · simp [hm]
  · rw [hstep]
    unfold keydown
    simp only [hk]
    by_cases hm :
        matchesTarget (String.join (lastTen (keydownRun lower keys ++ [lower key]))) = true
    · simp [hm]
    · simp [hm]

/-- The keys `Z`, `i`, `o`, `n` typed after `a`: the fourth one fires the
easter egg and empties the buffer, and eleven keys `a` leave ten. -/
theorem keydown_examples :
    keydownRun String.toLower ["a", "Z", "i", "o"] = ["a", "z", "i", "o"] ∧
    keydown String.toLower ["a", "z", "i", "o"] "n" = ([], true) ∧
    keydown String.toLower ["a", "3"] "9" = ([], true) ∧
    (keydownRun String.toLower (List.replicate 11 "a")).length = 10 := by
  decide!

/-- A point `b + c * x` with `x` in `[0, 1]` lies between `b` and `b + c`,
whatever the sign of `c`. -/
theorem between_of_unit (b c x : ℚ) (h0 : 0 ≤ x) (h1 : x ≤ 1) :
    min b (b + c) ≤ b + c * x ∧ b + c * x ≤ max b (b + c) := by
  rcases le_total 0 c with hc | hc
  · constructor
    · exact (min_le_left _ _).trans (by nlinarith)
    · exact le_trans (by nlinarith) (le_max_right _ _)
  · constructor
    · exact (min_le_right _ _).trans (by nlinarith)
    · exact le_trans (by nlinarith) (le_max_left _ _)

/-- The easing stays between `b` and `b + c` on `[0, d]`. -/
theorem easeInOutCubic_between (t b c d : ℚ) (hd : 0 < d) (h0 : 0 ≤ t) (ht : t ≤ d) :
    min b (b + c) ≤ easeInOutCubic t b c d ∧ easeInOutCubic t b c d ≤ max b (b + c) := by
  have hd2 : 0 < d / 2 := by linarith
  have hu0 : 0 ≤ t / (d / 2) := div_nonneg h0 hd2.le
  have hu2 : t / (d / 2) ≤ 2 := by
    rw [div_le_iff₀ hd2]
    linarith
  unfold easeInOutCubic
  simp only
  split_ifs with h
  · have hx0 : 0 ≤ t / (d / 2) * (t / (d / 2)) * (t / (d / 2)) / 2 := by positivity
    have hx1 : t / (d / 2) * (t / (d / 2)) * (t / (d / 2)) / 2 ≤ 1 := by
      have h2 : t / (d / 2) * (t / (d / 2)) ≤ 1 := by nlinarith
      have h3 : t / (d / 2) * (t / (d / 2)) * (t / (d / 2)) ≤ 1 := by nlinarith
      linarith
    have := between_of_unit b c _ hx0 hx1
    have e : c / 2 * (t / (d / 2)) * (t / (d / 2)) * (t / (d / 2)) + b =
        b + c * (t / (d / 2) * (t / (d / 2)) * (t / (d / 2)) / 2) := by ring
    rw [e]
    exact this
  · have hv0 : -1 ≤ t / (d / 2) - 2 := by linarith [not_lt.mp h]
    have hv1 : t / (d / 2) - 2 ≤ 0 := by linarith
    have hsq : 0 ≤ (t / (d / 2) - 2) * (t / (d / 2) - 2) := mul_self_nonneg _
    have hsq1 : (t / (d / 2) - 2) * (t / (d / 2) - 2) ≤ 1 := by nlinarith
    have hcu0 : -1 ≤ (t / (d / 2) - 2) * (t / (d / 2) - 2) * (t / (d / 2) - 2) := by nlinarith
    have hcu1 : (t / (d / 2) - 2) * (t / (d / 2) - 2) * (t / (d / 2) - 2) ≤ 0 := by nlinarith
    have := between_of_unit b c
      (((t / (d / 2) - 2) * (t / (d / 2) - 2) * (t / (d / 2) - 2) + 2) / 2)
      (by linarith) (by linarith)
    have e : c / 2 * ((t / (d / 2) - 2) * (t / (d / 2) - 2) * (t / (d / 2) - 2) + 2) + b =
        b + c * (((t / (d / 2) - 2) * (t / (d / 2) - 2) * (t / (d / 2) - 2) + 2) / 2) := by
      ring
    rw [e]
    exact this

/-- Every frame of the animation writes the easing of its elapsed time. -/
theorem animationFrames_mem (startPosition distance duration start : ℚ) (frames : List ℚ) :
    ∀ w ∈ animationFrames startPosition distance duration start frames,
      w.2 = easeInOutCubic w.1 startPosition distance duration := by
  induction frames with
  | nil => intro w hw; simp [animationFrames] at hw
  | cons currentTime rest ih =>
    intro w hw
    simp only [animationFrames, List.mem_cons] at hw
    rcases hw with hw | hw
    · rw [hw]
    · split_ifs at hw
      · exact ih w hw
      · simp at hw

/-- C16: for every start `b`, distance `c` and duration `d > 0`, in exact
arithmetic, `easeInOutCubic` gives `b` at 0, `b + c / 2` at `d / 2` and
`b + c` at `d`, and stays between `b` and `b + c` for `0 ≤ t ≤ d`; hence
every position `smoothScrollTo` writes at an elapsed time in `[0, 800]` lies
between the start position and the target position `offsetTop - 80`. -/
theorem easeInOutCubic_spec (b c d : ℚ) (hd : 0 < d) :
    easeInOutCubic 0 b c d = b ∧
    easeInOutCubic (d / 2) b c d = b + c / 2 ∧
    easeInOutCubic d b c d = b + c ∧
    (∀ t, 0 ≤ t → t ≤ d →
      min b (b + c) ≤ easeInOutCubic t b c d ∧ easeInOutCubic t b c d ≤ max b (b + c)) ∧
    (∀ (offsetTop pageYOffset : ℚ) (frames : List ℚ),
      ∀ w ∈ smoothScrollTo (some offsetTop) pageYOffset frames, 0 ≤ w.1 → w.1 ≤ 800 →
        min pageYOffset (offsetTop - 80) ≤ w.2 ∧ w.2 ≤ max pageYOffset (offsetTop - 80)) := by
  have hd2 : d / 2 ≠ 0 := by linarith
  refine ⟨?_, ?_, ?_, fun t h0 ht => easeInOutCubic_between t b c d hd h0 ht, ?_⟩
  · simp [easeInOutCubic]
  · have h1 : d / 2 / (d / 2) = 1 := div_self hd2
    simp only [easeInOutCubic, h1, lt_irrefl, if_false]
    ring
  · have h2 : d / (d / 2) = 2 := by field_simp
    have h3 : ¬ ((2 : ℚ) < 1) := by norm_num
    simp only [easeInOutCubic, h2, h3, if_false]
    ring
  · intro offsetTop pageYOffset frames w hw h0 h800
    cases frames with
    | nil => simp [smoothScrollTo] at hw
    | cons first rest =>
      simp only [smoothScrollTo] at hw
      have hw2 := animationFrames_mem _ _ _ _ _ w hw
      have hb := easeInOutCubic_between w.1 pageYOffset (offsetTop - 80 - pageYOffset) 800
        (by norm_num) h0 h800
      rw [hw2]
      have e : pageYOffset + (offsetTop - 80 - pageYOffset) = offsetTop - 80 := by ring
      rw [e] at hb
      exact hb

/-- The easing of C16 from position 0 over a distance of 100 in 800 ms, and
the positions written on the frames at 0, 400, 800 ms of a scroll from 0 to
the element at offset 180. -/
theorem easeInOutCubic_spec_witness :
    (easeInOutCubic 0 0 100 800 = 0 ∧ easeInOutCubic (800 / 2) 0 100 800 = 0 + 100 / 2 ∧
      easeInOutCubic 800 0 100 800 = 0 + 100) ∧
    smoothScrollTo (some 180) 0 [1000, 1400, 1800, 1816] = [(0, 0), (400, 50), (800, 100)] :=
  ⟨let h := easeInOutCubic_spec 0 100 800 (by norm_num)
   ⟨h.1, h.2.1, h.2.2.1⟩, by decide!⟩

end ZionSystem
